import Mathlib

/-!
# Ethernet MAC driver for STM32 devices (`Drivers/ETH_MAC_STM32.c`)

A shallow embedding of the driver's run-time record, of its client operations and of the
HAL callbacks it implements, followed by the properties proved about them.

Modelling conventions

* Pointers are addresses (`Nat`), `NULL` is `0`.  The two static pools `eth_mac0_rx_buf` and
  `eth_mac0_tx_buf` live in one flat byte memory `World.mem`; their base addresses and the
  HAL macros `ETH_RX_DESC_CNT`, `ETH_TX_DESC_CNT`, `ETH_MAX_PACKET_SIZE` are fields of `Config`.
* A client buffer (`frame` of `ETH_MAC_SendFrame` / `ETH_MAC_ReadFrame`) is `none` for `NULL`
  and otherwise the bytes reachable through the pointer, indexed by offset.
* The HAL is external: the status a HAL function returns is an argument of the driver
  function that calls it, the HAL handle `heth` is an argument of the function that reads it,
  and every call the driver makes to the HAL or to the client callback is appended to
  `World.calls`.
* `uint32_t` / `uint8_t` arithmetic is `Nat` arithmetic modulo `2 ^ 32` / `2 ^ 8`;
  `int32_t` results are `Int`.
* `RW_Info_t.mac_config`, `RW_Info_t.mac_filter` and the padding fields are written only by
  `memset` and by `ETH_MAC_Control`; they are left out of the record.
-/

namespace ETH_MAC_STM32

/-! ## Constants of the CMSIS-Driver API and of the HAL -/

/-- The null pointer. -/
def NULL : Nat := 0

/-- Execution status `ARM_DRIVER_OK` (CMSIS `Driver_Common.h`). -/
def ARM_DRIVER_OK : Int := 0
/-- Execution status `ARM_DRIVER_ERROR`: unspecified error. -/
def ARM_DRIVER_ERROR : Int := -1
/-- Execution status `ARM_DRIVER_ERROR_BUSY`: driver is busy. -/
def ARM_DRIVER_ERROR_BUSY : Int := -2
/-- Execution status `ARM_DRIVER_ERROR_UNSUPPORTED`: operation not supported. -/
def ARM_DRIVER_ERROR_UNSUPPORTED : Int := -4
/-- Execution status `ARM_DRIVER_ERROR_PARAMETER`: parameter error. -/
def ARM_DRIVER_ERROR_PARAMETER : Int := -5

/-- Power state `ARM_POWER_OFF` of `enum ARM_POWER_STATE`. -/
def ARM_POWER_OFF : Nat := 0
/-- Power state `ARM_POWER_LOW`. -/
def ARM_POWER_LOW : Nat := 1
/-- Power state `ARM_POWER_FULL`. -/
def ARM_POWER_FULL : Nat := 2

/-- Transmit flag `ARM_ETH_MAC_TX_FRAME_FRAGMENT` (`1UL << 0`): more fragments follow. -/
def ARM_ETH_MAC_TX_FRAME_FRAGMENT : Nat := 1

/-- Event `ARM_ETH_MAC_EVENT_RX_FRAME` (`1UL << 0`). -/
def ARM_ETH_MAC_EVENT_RX_FRAME : Nat := 1
/-- Event `ARM_ETH_MAC_EVENT_TX_FRAME` (`1UL << 1`). -/
def ARM_ETH_MAC_EVENT_TX_FRAME : Nat := 2
/-- Event `ARM_ETH_MAC_EVENT_WAKEUP` (`1UL << 2`). -/
def ARM_ETH_MAC_EVENT_WAKEUP : Nat := 4

/-- Return type of the HAL functions. -/
inductive HAL_StatusTypeDef where
  | HAL_OK
  | HAL_ERROR
  | HAL_BUSY
  | HAL_TIMEOUT
  deriving DecidableEq, Repr

open HAL_StatusTypeDef

/-- Compile-time configuration: the HAL macros and link-time addresses the driver uses. -/
structure Config where
  /-- Number of receive descriptors, the first dimension of `eth_mac0_rx_buf`. -/
  ETH_RX_DESC_CNT : Nat
  /-- Number of transmit descriptors, the first dimension of `eth_mac0_tx_buf`. -/
  ETH_TX_DESC_CNT : Nat
  /-- Size in bytes of one region of either pool. -/
  ETH_MAX_PACKET_SIZE : Nat
  /-- Address of `eth_mac0_rx_buf`. -/
  eth_mac0_rx_buf : Nat
  /-- Address of `eth_mac0_tx_buf`. -/
  eth_mac0_tx_buf : Nat
  /-- Mask `ETH_DMATXDESC_OWN` when the HAL defines it (`#ifdef ETH_DMATXDESC_OWN`). -/
  ETH_DMATXDESC_OWN : Option Nat
  /-- Mask `ETH_DMATXNDESCWBF_OWN`, used when `ETH_DMATXDESC_OWN` is not defined. -/
  ETH_DMATXNDESCWBF_OWN : Nat

/-- Address of `eth_mac0_rx_buf[i]`. -/
def eth_mac0_rx_buf (cfg : Config) (i : Nat) : Nat :=
  cfg.eth_mac0_rx_buf + i * cfg.ETH_MAX_PACKET_SIZE

/-- Address of `eth_mac0_tx_buf[i]`. -/
def eth_mac0_tx_buf (cfg : Config) (i : Nat) : Nat :=
  cfg.eth_mac0_tx_buf + i * cfg.ETH_MAX_PACKET_SIZE

/-! ## Data model -/

/-- Driver status: two one-bit fields. -/
structure DriverStatus_t where
  initialized : Bool
  powered : Bool
  deriving DecidableEq, Repr

/-- HAL buffer descriptor `ETH_BufferTypeDef`. -/
structure ETH_BufferTypeDef where
  buffer : Nat
  len : Nat
  next : Nat
  deriving DecidableEq, Repr

/-- Run-time information `RW_Info_t`. -/
structure RW_Info_t where
  cb_event : Nat
  drv_status : DriverStatus_t
  alloc_idx : Nat
  tx_buf : ETH_BufferTypeDef
  rx_buf : ETH_BufferTypeDef
  deriving DecidableEq, Repr

/-- The record after `memset (&eth_mac0_rw_info, 0, sizeof (RW_Info_t))`; also the value of the
static record at program start. -/
def RW_Info_t.zero : RW_Info_t :=
  { cb_event := NULL
    drv_status := { initialized := false, powered := false }
    alloc_idx := 0
    tx_buf := { buffer := NULL, len := 0, next := NULL }
    rx_buf := { buffer := NULL, len := 0, next := NULL } }

/-- A DMA descriptor `ETH_DMADescTypeDef`: its four words. -/
structure ETH_DMADescTypeDef where
  DESC0 : Nat
  DESC1 : Nat
  DESC2 : Nat
  DESC3 : Nat
  deriving DecidableEq, Repr

/-- Transmit descriptor list `heth.TxDescList`: `TxDesc i` is the descriptor that entry `i`
points to. -/
structure ETH_TxDescListTypeDef where
  TxDesc : Nat → ETH_DMADescTypeDef
  CurTxDesc : Nat

/-- The part of the HAL handle `heth` the data path reads. -/
structure ETH_HandleTypeDef where
  TxDescList : ETH_TxDescListTypeDef

/-- The fields of the HAL transmit configuration `TxConfig` the driver writes.  `TxBuffer` is
`true` once it holds `&eth_mac0_rw_info.tx_buf`, the only value the driver stores there. -/
structure ETH_TxPacketConfig where
  TxBuffer : Bool
  Length : Nat
  deriving DecidableEq, Repr

/-- A call that leaves the driver: to the HAL or to the client callback. -/
inductive Call where
  /-- `HAL_ETH_Init (heth)`. -/
  | HAL_ETH_Init
  /-- `HAL_ETH_DeInit (heth)`. -/
  | HAL_ETH_DeInit
  /-- `HAL_ETH_Transmit_IT (heth, &TxConfig)`: the configuration passed, the buffer descriptor
  `*TxConfig.TxBuffer`, and the `TxConfig.Length` bytes found at its `buffer`. -/
  | HAL_ETH_Transmit_IT (TxConfig : ETH_TxPacketConfig) (tx_buf : ETH_BufferTypeDef)
      (data : List Nat)
  /-- `HAL_ETH_ReadData (heth, &dummy)`. -/
  | HAL_ETH_ReadData
  /-- `cb_event (event)` through the registered function pointer `fn`. -/
  | cb_event (fn : Nat) (event : Nat)
  deriving DecidableEq, Repr

/-- Everything the driver reads or writes: its run-time record, the HAL transmit configuration,
the byte memory holding the two buffer pools, and the calls made so far. -/
structure World where
  eth_mac0_rw_info : RW_Info_t
  TxConfig : ETH_TxPacketConfig
  mem : Nat → Nat
  calls : List Call

/-! ## Helpers for memory and machine integers -/

/-- The C library `memcpy (dst, src, n)` on a byte memory: `src` is the source seen from its
first byte. -/
def memcpy (mem : Nat → Nat) (dst : Nat) (src : Nat → Nat) (n : Nat) : Nat → Nat :=
  fun a => if dst ≤ a ∧ a < dst + n then src (a - dst) else mem a

/-- The `n` bytes of `mem` starting at address `p`. -/
def bytesAt (mem : Nat → Nat) (p n : Nat) : List Nat :=
  (List.range n).map (fun i => mem (p + i))

/-- Conversion `(int32_t) n` of a `uint32_t`. -/
def int32_of_uint32 (n : Nat) : Int :=
  if n % 2 ^ 32 < 2 ^ 31 then ((n % 2 ^ 32 : Nat) : Int) else ((n % 2 ^ 32 : Nat) : Int) - 2 ^ 32

/-- Whether the hardware owns the transmit descriptor: the `OWN` bit test of
`ETH_MAC_SendFrame`, on the first word when `ETH_DMATXDESC_OWN` is defined and on `DESC3`
otherwise. -/
def tx_desc_own (cfg : Config) (tx_desc : ETH_DMADescTypeDef) : Bool :=
  match cfg.ETH_DMATXDESC_OWN with
  | some own => (tx_desc.DESC0 &&& own) != 0
  | none => (tx_desc.DESC3 &&& cfg.ETH_DMATXNDESCWBF_OWN) != 0

/-! ## Driver functions -/

/-- Initialize Ethernet MAC Device. -/
def ETH_MAC_Initialize (w : World) (cb_event : Nat) : Int × World :=
  -- Clear run-time info
  let rw0 := RW_Info_t.zero
  -- Register callback function
  let rw1 := { rw0 with cb_event := cb_event }
  -- Set driver status to initialized
  let rw2 := { rw1 with drv_status := { rw1.drv_status with initialized := true } }
  (ARM_DRIVER_OK, { w with eth_mac0_rw_info := rw2 })

/-- Control Ethernet MAC Device Power.  `hal` is the status returned by the HAL function the
selected case calls (`HAL_ETH_Init` or `HAL_ETH_DeInit`). -/
def ETH_MAC_PowerControl (hal : HAL_StatusTypeDef) (w : World) (state : Nat) : Int × World :=
  if state = ARM_POWER_FULL then
    if w.eth_mac0_rw_info.drv_status.initialized = false then
      (ARM_DRIVER_ERROR, w)
    else
      -- Initialize pins, clocks, interrupts and peripheral
      let w1 := { w with calls := w.calls ++ [Call.HAL_ETH_Init] }
      if hal ≠ HAL_OK then
        (ARM_DRIVER_ERROR, w1)
      else
        let rw1 := { w1.eth_mac0_rw_info with
          tx_buf := { w1.eth_mac0_rw_info.tx_buf with len := 0 } }
        -- Set driver status to powered
        let rw2 := { rw1 with drv_status := { rw1.drv_status with powered := true } }
        (ARM_DRIVER_OK, { w1 with eth_mac0_rw_info := rw2 })
  else if state = ARM_POWER_OFF then
    -- De-initialize pins, clocks, interrupts and peripheral
    let w1 := { w with calls := w.calls ++ [Call.HAL_ETH_DeInit] }
    -- Set driver status to not powered
    let rw1 := { w1.eth_mac0_rw_info with
      drv_status := { w1.eth_mac0_rw_info.drv_status with powered := false } }
    (ARM_DRIVER_OK, { w1 with eth_mac0_rw_info := rw1 })
  else if state = ARM_POWER_LOW then
    (ARM_DRIVER_ERROR_UNSUPPORTED, w)
  else
    (ARM_DRIVER_ERROR_PARAMETER, w)

/-- De-initialize Ethernet MAC Device.  `hal` is the status `HAL_ETH_DeInit` returns if it is
called. -/
def ETH_MAC_Uninitialize (hal : HAL_StatusTypeDef) (w : World) : Int × World :=
  let w1 :=
    if w.eth_mac0_rw_info.drv_status.powered ≠ false then
      -- If peripheral is powered, power off the peripheral
      (ETH_MAC_PowerControl hal w ARM_POWER_OFF).2
    else w
  -- Clear run-time info
  (ARM_DRIVER_OK, { w1 with eth_mac0_rw_info := RW_Info_t.zero })

/-- Send Ethernet frame.  `heth` is the HAL handle as it is when the call is made and `hal` the
status `HAL_ETH_Transmit_IT` returns if it is called. -/
def ETH_MAC_SendFrame (cfg : Config) (heth : ETH_HandleTypeDef) (hal : HAL_StatusTypeDef)
    (w : World) (frame : Option (Nat → Nat)) (len flags : Nat) : Int × World :=
  match frame with
  | none =>
    -- If any parameter is invalid
    (ARM_DRIVER_ERROR_PARAMETER, w)
  | some src =>
    if len = 0 then
      (ARM_DRIVER_ERROR_PARAMETER, w)
    else if w.eth_mac0_rw_info.drv_status.powered = false then
      (ARM_DRIVER_ERROR, w)
    else
      let start : Option ETH_BufferTypeDef :=
        if w.eth_mac0_rw_info.tx_buf.len = 0 then
          -- Start of a new transmit frame
          let tx_index := heth.TxDescList.CurTxDesc
          let tx_desc := heth.TxDescList.TxDesc tx_index
          if tx_desc_own cfg tx_desc = true then
            -- If Transmitter is busy
            none
          else
            some { w.eth_mac0_rw_info.tx_buf with
              buffer := eth_mac0_tx_buf cfg tx_index, next := NULL }
        else some w.eth_mac0_rw_info.tx_buf
      match start with
      | none => (ARM_DRIVER_ERROR_BUSY, w)
      | some tx_buf0 =>
        -- Copy data fragments to ETH-DMA buffer
        let mem1 := memcpy w.mem (tx_buf0.buffer + tx_buf0.len) src len
        let tx_buf1 := { tx_buf0 with len := (tx_buf0.len + len) % 2 ^ 32 }
        let w1 := { w with
          eth_mac0_rw_info := { w.eth_mac0_rw_info with tx_buf := tx_buf1 }, mem := mem1 }
        if flags &&& ARM_ETH_MAC_TX_FRAME_FRAGMENT ≠ 0 then
          -- More data to come, remember current write position
          (ARM_DRIVER_OK, w1)
        else
          -- Last fragment, send the packet now
          let TxConfig1 : ETH_TxPacketConfig := { TxBuffer := true, Length := tx_buf1.len }
          let w2 := { w1 with
            TxConfig := TxConfig1,
            calls := w1.calls ++
              [Call.HAL_ETH_Transmit_IT TxConfig1 tx_buf1
                (bytesAt mem1 tx_buf1.buffer TxConfig1.Length)] }
          if hal ≠ HAL_OK then
            (ARM_DRIVER_ERROR, w2)
          else
            (ARM_DRIVER_OK, { w2 with
              eth_mac0_rw_info := { w2.eth_mac0_rw_info with
                tx_buf := { w2.eth_mac0_rw_info.tx_buf with len := 0 } } })

/-- Read data of received Ethernet frame.  Returns the result, the client buffer after the call
(`none` when `frame` is `NULL`) and the new world. -/
def ETH_MAC_ReadFrame (w : World) (frame : Option (Nat → Nat)) (len : Nat) :
    Int × Option (Nat → Nat) × World :=
  if frame.isNone = true ∧ len ≠ 0 then
    -- If parameter combination is invalid
    (ARM_DRIVER_ERROR_PARAMETER, frame, w)
  else if w.eth_mac0_rw_info.drv_status.powered = false then
    (ARM_DRIVER_ERROR, frame, w)
  else
    match frame with
    | some dst =>
      if w.eth_mac0_rw_info.rx_buf.buffer ≠ NULL then
        let dst1 := memcpy dst 0 (fun i => w.mem (w.eth_mac0_rw_info.rx_buf.buffer + i)) len
        let rw1 := { w.eth_mac0_rw_info with
          rx_buf := { w.eth_mac0_rw_info.rx_buf with buffer := NULL } }
        (int32_of_uint32 len, some dst1, { w with eth_mac0_rw_info := rw1 })
      else (0, frame, w)
    | none => (0, frame, w)

/-! ## HAL callback functions -/

/-- Rx Allocate callback: returns `*buff` and the new world. -/
def HAL_ETH_RxAllocateCallback (cfg : Config) (w : World) : Nat × World :=
  -- Allocate one of the RX-DMA buffers sequentially
  let buff := eth_mac0_rx_buf cfg w.eth_mac0_rw_info.alloc_idx
  let alloc_idx1 := (w.eth_mac0_rw_info.alloc_idx + 1) % 2 ^ 8
  let alloc_idx2 := if alloc_idx1 ≥ cfg.ETH_RX_DESC_CNT then 0 else alloc_idx1
  (buff, { w with eth_mac0_rw_info := { w.eth_mac0_rw_info with alloc_idx := alloc_idx2 } })

/-- Rx Link callback (`Length` is a `uint16_t`). -/
def HAL_ETH_RxLinkCallback (w : World) (buff : Nat) (Length : Nat) : World :=
  { w with eth_mac0_rw_info := { w.eth_mac0_rw_info with
      rx_buf := { w.eth_mac0_rw_info.rx_buf with buffer := buff, len := Length } } }

/-- Tx Transfer completed callback. -/
def HAL_ETH_TxCpltCallback (w : World) : World :=
  if w.eth_mac0_rw_info.cb_event ≠ NULL then
    { w with calls := w.calls ++
        [Call.cb_event w.eth_mac0_rw_info.cb_event ARM_ETH_MAC_EVENT_TX_FRAME] }
  else w

/-- Rx Transfer completed callback. -/
def HAL_ETH_RxCpltCallback (w : World) : World :=
  if w.eth_mac0_rw_info.cb_event ≠ NULL then
    { w with calls := w.calls ++
        [Call.cb_event w.eth_mac0_rw_info.cb_event ARM_ETH_MAC_EVENT_RX_FRAME] }
  else w

/-- Ethernet Power Management module IT callback. -/
def HAL_ETH_PMTCallback (w : World) : World :=
  if w.eth_mac0_rw_info.cb_event ≠ NULL then
    { w with calls := w.calls ++
        [Call.cb_event w.eth_mac0_rw_info.cb_event ARM_ETH_MAC_EVENT_WAKEUP] }
  else w

/-- A HAL callback together with its arguments. -/
inductive Callback where
  | RxAllocate
  | RxLink (buff : Nat) (Length : Nat)
  | TxCplt
  | RxCplt
  | PMT
  deriving DecidableEq, Repr

/-- The world after the HAL has invoked the callback `cb`. -/
def Callback.run (cfg : Config) (w : World) (cb : Callback) : World :=
  match cb with
  | Callback.RxAllocate => (HAL_ETH_RxAllocateCallback cfg w).2
  | Callback.RxLink buff Length => HAL_ETH_RxLinkCallback w buff Length
  | Callback.TxCplt => HAL_ETH_TxCpltCallback w
  | Callback.RxCplt => HAL_ETH_RxCpltCallback w
  | Callback.PMT => HAL_ETH_PMTCallback w

/-- Get size of received Ethernet frame.  `HAL_ETH_ReadData` is external: `during` lists the
callbacks the HAL invokes before it returns, and `hal` is the status it returns. -/
def ETH_MAC_GetRxFrameSize (cfg : Config) (during : List Callback) (hal : HAL_StatusTypeDef)
    (w : World) : Nat × World :=
  let w1 := { w with calls := w.calls ++ [Call.HAL_ETH_ReadData] }
  let w2 := during.foldl (Callback.run cfg) w1
  if hal = HAL_OK then
    -- Length returned in a Link callback function
    (w2.eth_mac0_rw_info.rx_buf.len, w2)
  else
    -- If no data is available
    (0, w2)

/-! ## Sequences of operations -/

/-- One event in the life of the driver: a client call with its arguments and with the
behaviour of the HAL during the call, a HAL callback, or a write of the DMA engine to memory. -/
inductive Op where
  | Initialize (cb_event : Nat)
  | Uninitialize (hal : HAL_StatusTypeDef)
  | PowerControl (hal : HAL_StatusTypeDef) (state : Nat)
  | SendFrame (heth : ETH_HandleTypeDef) (hal : HAL_StatusTypeDef)
      (frame : Option (Nat → Nat)) (len flags : Nat)
  | ReadFrame (frame : Option (Nat → Nat)) (len : Nat)
  | GetRxFrameSize (during : List Callback) (hal : HAL_StatusTypeDef)
  | Callback (cb : Callback)
  | DMA (addr byte : Nat)

/-- The world after one event. -/
def Op.step (cfg : Config) (w : World) (op : Op) : World :=
  match op with
  | Op.Initialize cb_event => ( ETH_MAC_Initialize w cb_event).2
  | Op.Uninitialize hal => ( ETH_MAC_Uninitialize hal w).2
  | Op.PowerControl hal state => (ETH_MAC_PowerControl hal w state).2
  | Op.SendFrame heth hal frame len flags => (ETH_MAC_SendFrame cfg heth hal w frame len flags).2
  | Op.ReadFrame frame len => (ETH_MAC_ReadFrame w frame len).2.2
  | Op.GetRxFrameSize during hal => (ETH_MAC_GetRxFrameSize cfg during hal w).2
  | Op.Callback cb => cb.run cfg w
  | Op.DMA addr byte => { w with mem := Function.update w.mem addr byte }

/-- The world after a sequence of events. -/
def run (cfg : Config) (w : World) (ops : List Op) : World :=
  ops.foldl (Op.step cfg) w

/-- The world at program start: the zero-initialised static record, the transmit configuration
and memory as the start-up code left them, no call made yet. -/
def World.reset (TxConfig : ETH_TxPacketConfig) (mem : Nat → Nat) : World :=
  { eth_mac0_rw_info := RW_Info_t.zero
    TxConfig := TxConfig
    mem := mem
    calls := [] }

/-- The caller's obligation for one event: an `ETH_MAC_SendFrame` call does not take the write
position `tx_buf.len` past the size of one staging region. -/
def Op.withinCapacity (cfg : Config) (w : World) : Op → Prop
  | Op.SendFrame _ _ _ len _ => w.eth_mac0_rw_info.tx_buf.len + len ≤ cfg.ETH_MAX_PACKET_SIZE
  | _ => True

instance Op.withinCapacity.decidable (cfg : Config) (w : World) :
    (op : Op) → Decidable (op.withinCapacity cfg w)
  | Op.SendFrame _ _ _ len _ =>
    inferInstanceAs (Decidable (w.eth_mac0_rw_info.tx_buf.len + len ≤ cfg.ETH_MAX_PACKET_SIZE))
  | Op.Initialize _ => isTrue trivial
  | Op.Uninitialize _ => isTrue trivial
  | Op.PowerControl _ _ => isTrue trivial
  | Op.ReadFrame _ _ => isTrue trivial
  | Op.GetRxFrameSize _ _ => isTrue trivial
  | Op.Callback _ => isTrue trivial
  | Op.DMA _ _ => isTrue trivial

/-- Every event of the sequence meets the caller's obligation in the world it happens in. -/
def withinCapacity (cfg : Config) (w : World) : List Op → Prop
  | [] => True
  | op :: ops => op.withinCapacity cfg w ∧ withinCapacity cfg (op.step cfg w) ops

instance withinCapacity.decidable (cfg : Config) :
    (w : World) → (ops : List Op) → Decidable (withinCapacity cfg w ops)
  | _, [] => isTrue trivial
  | w, op :: ops =>
    match Op.withinCapacity.decidable cfg w op,
      withinCapacity.decidable cfg (op.step cfg w) ops with
    | isTrue h1, isTrue h2 => isTrue ⟨h1, h2⟩
    | isFalse h1, _ => isFalse (fun h => h1 h.1)
    | _, isFalse h2 => isFalse (fun h => h2 h.2)

/-! ## Sequences of `ETH_MAC_SendFrame` calls -/

/-- The arguments of one `ETH_MAC_SendFrame` call, with the HAL handle at the time of the call
and the status `HAL_ETH_Transmit_IT` returns if the call reaches it. -/
structure SendFrameCall where
  heth : ETH_HandleTypeDef
  hal : HAL_StatusTypeDef
  frame : Option (Nat → Nat)
  len : Nat
  flags : Nat

/-- The bytes the caller passes: the first `len` bytes at `frame`. -/
def SendFrameCall.payload (c : SendFrameCall) : List Nat :=
  match c.frame with
  | some src => bytesAt src 0 c.len
  | none => []

/-- The arguments are valid: `frame` is not `NULL` and `len` is not `0`. -/
def SendFrameCall.valid (c : SendFrameCall) : Prop :=
  c.frame.isSome = true ∧ 0 < c.len

/-- The call announces more fragments: `ARM_ETH_MAC_TX_FRAME_FRAGMENT` is set in `flags`. -/
def SendFrameCall.fragment (c : SendFrameCall) : Prop :=
  c.flags &&& ARM_ETH_MAC_TX_FRAME_FRAGMENT ≠ 0

instance (c : SendFrameCall) : Decidable c.valid := by
  unfold SendFrameCall.valid; infer_instance

instance (c : SendFrameCall) : Decidable c.fragment := by
  unfold SendFrameCall.fragment; infer_instance

/-- The hardware owns the descriptor at the current transmit index of the call's handle. -/
def SendFrameCall.own (cfg : Config) (c : SendFrameCall) : Bool :=
  tx_desc_own cfg (c.heth.TxDescList.TxDesc c.heth.TxDescList.CurTxDesc)

/-- The staging buffer descriptor with which `ETH_MAC_SendFrame` copies when it is not rejected:
at the start of a frame it points to the pool region of the current transmit index. -/
def startBuffer (cfg : Config) (heth : ETH_HandleTypeDef) (w : World) : ETH_BufferTypeDef :=
  if w.eth_mac0_rw_info.tx_buf.len = 0 then
    { w.eth_mac0_rw_info.tx_buf with
      buffer := eth_mac0_tx_buf cfg heth.TxDescList.CurTxDesc, next := NULL }
  else w.eth_mac0_rw_info.tx_buf

/-- The calls make up one frame: there is at least one, and exactly the last one is final. -/
def isFrame : List SendFrameCall → Prop
  | [] => False
  | [c] => ¬ c.fragment
  | c :: c1 :: cs => c.fragment ∧ isFrame (c1 :: cs)

instance isFrame.decidable : (cs : List SendFrameCall) → Decidable (isFrame cs)
  | [] => isFalse (fun h => h)
  | [c] => by unfold isFrame; infer_instance
  | c :: c1 :: cs =>
    have : Decidable (isFrame (c1 :: cs)) := isFrame.decidable (c1 :: cs)
    by unfold isFrame; infer_instance

/-- The calls made in order: the results returned and the world after the last one. -/
def sendFrames (cfg : Config) (w : World) : List SendFrameCall → List Int × World
  | [] => ([], w)
  | c :: cs =>
    let r := ETH_MAC_SendFrame cfg c.heth c.hal w c.frame c.len c.flags
    let rs := sendFrames cfg r.2 cs
    (r.1 :: rs.1, rs.2)

/-! ## Sequences of HAL receive callbacks -/

/-- The world after the link notifications `(buff, Length)` of the list, in order. -/
def rxLinks (w : World) (ns : List (Nat × Nat)) : World :=
  ns.foldl (fun w n => HAL_ETH_RxLinkCallback w n.1 n.2) w

/-- The world after `k` calls of `HAL_ETH_RxAllocateCallback`. -/
def allocate (cfg : Config) (w : World) : Nat → World
  | 0 => w
  | k + 1 => (HAL_ETH_RxAllocateCallback cfg (allocate cfg w k)).2

/-- The callback is a link notification. -/
def Callback.isRxLink : Callback → Bool
  | Callback.RxLink _ _ => true
  | _ => false

/-! ## Example configuration and inputs -/

/-- The configuration of the driver documentation: four descriptors each way, regions of 1524
bytes, the pools at `0x30040100` and `0x30041900`, ownership bit 31 of `DESC3`. -/
def exampleConfig : Config :=
  { ETH_RX_DESC_CNT := 4
    ETH_TX_DESC_CNT := 4
    ETH_MAX_PACKET_SIZE := 1524
    eth_mac0_rx_buf := 0x30040100
    eth_mac0_tx_buf := 0x30041900
    ETH_DMATXDESC_OWN := none
    ETH_DMATXNDESCWBF_OWN := 0x80000000 }

/-- A handle whose current transmit descriptor is number `0` and is free. -/
def hethFree : ETH_HandleTypeDef :=
  { TxDescList := { TxDesc := fun _ => { DESC0 := 0, DESC1 := 0, DESC2 := 0, DESC3 := 0 },
                    CurTxDesc := 0 } }

/-- A handle whose current transmit descriptor is number `0` and is owned by the hardware. -/
def hethBusy : ETH_HandleTypeDef :=
  { TxDescList :=
      { TxDesc := fun _ => { DESC0 := 0, DESC1 := 0, DESC2 := 0, DESC3 := 0x80000000 },
        CurTxDesc := 0 } }

/-- A client buffer holding the bytes `l`, followed by zeros. -/
def bufferOf (l : List Nat) : Nat → Nat :=
  fun i => l.getD i 0

/-- The world after `Initialize (7)` and a successful `PowerControl (ARM_POWER_FULL)` from
program start with zeroed memory. -/
def poweredWorld : World :=
  (ETH_MAC_PowerControl HAL_OK
    ( ETH_MAC_Initialize (World.reset { TxBuffer := false, Length := 0 } (fun _ => 0)) 7).2
    ARM_POWER_FULL).2

/-- The call `SendFrame ("AB", 2, ARM_ETH_MAC_TX_FRAME_FRAGMENT)` with a free descriptor. -/
def fragmentAB : SendFrameCall :=
  { heth := hethFree, hal := HAL_OK, frame := some (bufferOf [65, 66]), len := 2,
    flags := ARM_ETH_MAC_TX_FRAME_FRAGMENT }

/-- The call `SendFrame ("CD", 2, 0)` with a free descriptor and a HAL that accepts the frame. -/
def finalCD : SendFrameCall :=
  { heth := hethFree, hal := HAL_OK, frame := some (bufferOf [67, 68]), len := 2, flags := 0 }

/-- The powered driver after the link notification of a 60-byte frame in pool region `0`. -/
def trackedWorld : World :=
  HAL_ETH_RxLinkCallback poweredWorld 0x30040100 60

/-! ## Auxiliary lemmas -/

theorem bytesAt_memcpy_append (mem : Nat → Nat) (b n : Nat) (src : Nat → Nat) (len : Nat) :
    bytesAt (memcpy mem (b + n) src len) b (n + len) = bytesAt mem b n ++ bytesAt src 0 len := by
  unfold bytesAt memcpy
  rw [List.range_add, List.map_append, List.map_map]
  congr 1
  · apply List.map_congr_left
    intro i hi
    have hi2 := List.mem_range.mp hi
    have : ¬ (b + n ≤ b + i ∧ b + i < b + n + len) := by omega
    exact if_neg this
  · apply List.map_congr_left
    intro i hi
    have hi2 := List.mem_range.mp hi
    have h1 : b + n ≤ b + (n + i) ∧ b + (n + i) < b + n + len := by omega
    have h2 : b + (n + i) - (b + n) = i := by omega
    show (if b + n ≤ b + (n + i) ∧ b + (n + i) < b + n + len then src (b + (n + i) - (b + n))
      else mem (b + (n + i))) = src (0 + i)
    rw [if_pos h1, h2, Nat.zero_add]

/-- A valid call on a powered driver that is not rejected as busy and announces more
fragments: the bytes are appended to the staging buffer and nothing else happens. -/
theorem sendFrame_fragment_eq (cfg : Config) (heth : ETH_HandleTypeDef) (hal : HAL_StatusTypeDef)
    (w : World) (src : Nat → Nat) (len flags : Nat)
    (hlen : len ≠ 0) (hpow : w.eth_mac0_rw_info.drv_status.powered = true)
    (hfree : w.eth_mac0_rw_info.tx_buf.len = 0 →
      tx_desc_own cfg (heth.TxDescList.TxDesc heth.TxDescList.CurTxDesc) = false)
    (hfrag : flags &&& ARM_ETH_MAC_TX_FRAME_FRAGMENT ≠ 0) :
    ETH_MAC_SendFrame cfg heth hal w (some src) len flags =
      (ARM_DRIVER_OK, { w with
        eth_mac0_rw_info := { w.eth_mac0_rw_info with
          tx_buf := { startBuffer cfg heth w with
            len := ((startBuffer cfg heth w).len + len) % 2 ^ 32 } },
        mem := memcpy w.mem ((startBuffer cfg heth w).buffer + (startBuffer cfg heth w).len)
          src len }) := by
  unfold ETH_MAC_SendFrame startBuffer
  by_cases h0 : w.eth_mac0_rw_info.tx_buf.len = 0
  · simp [hlen, hpow, h0, hfree h0, hfrag]
  · simp [hlen, hpow, h0, hfrag]

/-- A valid final call on a powered driver that is not rejected as busy: the bytes are
appended, the frame is handed to `HAL_ETH_Transmit_IT`, and on `HAL_OK` the write position is
reset. -/
theorem sendFrame_final_eq (cfg : Config) (heth : ETH_HandleTypeDef)
    (w : World) (src : Nat → Nat) (len flags : Nat)
    (hlen : len ≠ 0) (hpow : w.eth_mac0_rw_info.drv_status.powered = true)
    (hfree : w.eth_mac0_rw_info.tx_buf.len = 0 →
      tx_desc_own cfg (heth.TxDescList.TxDesc heth.TxDescList.CurTxDesc) = false)
    (hfinal : ¬ flags &&& ARM_ETH_MAC_TX_FRAME_FRAGMENT ≠ 0) :
    ETH_MAC_SendFrame cfg heth HAL_OK w (some src) len flags =
      (ARM_DRIVER_OK, { w with
        eth_mac0_rw_info := { w.eth_mac0_rw_info with
          tx_buf := { startBuffer cfg heth w with len := 0 } },
        TxConfig := { TxBuffer := true,
                      Length := ((startBuffer cfg heth w).len + len) % 2 ^ 32 },
        mem := memcpy w.mem ((startBuffer cfg heth w).buffer + (startBuffer cfg heth w).len)
          src len,
        calls := w.calls ++
          [Call.HAL_ETH_Transmit_IT
            { TxBuffer := true, Length := ((startBuffer cfg heth w).len + len) % 2 ^ 32 }
            { startBuffer cfg heth w with
              len := ((startBuffer cfg heth w).len + len) % 2 ^ 32 }
            (bytesAt
              (memcpy w.mem ((startBuffer cfg heth w).buffer + (startBuffer cfg heth w).len)
                src len)
              (startBuffer cfg heth w).buffer
              (((startBuffer cfg heth w).len + len) % 2 ^ 32))] }) := by
  unfold ETH_MAC_SendFrame startBuffer
  by_cases h0 : w.eth_mac0_rw_info.tx_buf.len = 0
  · simp [hlen, hpow, h0, hfree h0, hfinal]
  · simp [hlen, hpow, h0, hfinal]

/-- The length of the staging buffer descriptor used by a call is the current write position. -/
theorem startBuffer_len (cfg : Config) (heth : ETH_HandleTypeDef) (w : World) :
    (startBuffer cfg heth w).len = w.eth_mac0_rw_info.tx_buf.len := by
  unfold startBuffer
  split <;> rfl

/-- One frame, assembled from a powered world whose write position is within capacity: every
call returns `ARM_DRIVER_OK`, the only call that leaves the driver is one
`HAL_ETH_Transmit_IT` whose data is what the staging buffer held followed by the payloads,
and the write position ends at `0`. -/
theorem sendFrames_frame (cfg : Config) (hcap : cfg.ETH_MAX_PACKET_SIZE < 2 ^ 32) :
    ∀ (cs : List SendFrameCall) (c : SendFrameCall) (w : World),
      w.eth_mac0_rw_info.drv_status.powered = true →
      (w.eth_mac0_rw_info.tx_buf.len = 0 → c.own cfg = false) →
      (∀ x ∈ c :: cs, x.valid) →
      isFrame (c :: cs) →
      (∀ x ∈ (c :: cs).getLast?, x.hal = HAL_OK) →
      w.eth_mac0_rw_info.tx_buf.len + ((c :: cs).map (fun x => x.len)).sum
        ≤ cfg.ETH_MAX_PACKET_SIZE →
      (sendFrames cfg w (c :: cs)).1 = List.replicate (c :: cs).length ARM_DRIVER_OK ∧
      (sendFrames cfg w (c :: cs)).2.calls = w.calls ++
        [Call.HAL_ETH_Transmit_IT
          { TxBuffer := true,
            Length := w.eth_mac0_rw_info.tx_buf.len + ((c :: cs).map (fun x => x.len)).sum }
          { startBuffer cfg c.heth w with
            len := w.eth_mac0_rw_info.tx_buf.len + ((c :: cs).map (fun x => x.len)).sum }
          (bytesAt w.mem (startBuffer cfg c.heth w).buffer w.eth_mac0_rw_info.tx_buf.len ++
            ((c :: cs).map SendFrameCall.payload).flatten)] ∧
      (sendFrames cfg w (c :: cs)).2.eth_mac0_rw_info.tx_buf.len = 0 := by
  intro cs
  induction cs with
  | nil =>
    intro c w hpow hfree hvalid hframe hhal htotal
    obtain ⟨hsome, hpos⟩ := hvalid c (List.mem_cons_self _ _)
    obtain ⟨src, hsrc⟩ := Option.isSome_iff_exists.mp hsome
    have hok : c.hal = HAL_OK := hhal c (by simp)
    have hfinal : ¬ c.flags &&& ARM_ETH_MAC_TX_FRAME_FRAGMENT ≠ 0 := hframe
    have hstep := sendFrame_final_eq cfg c.heth w src c.len c.flags (by omega) hpow hfree hfinal
    simp only [List.map_cons, List.map_nil, List.sum_cons, List.sum_nil, Nat.add_zero] at htotal
    have hmod : (w.eth_mac0_rw_info.tx_buf.len + c.len) % 2 ^ 32
        = w.eth_mac0_rw_info.tx_buf.len + c.len := Nat.mod_eq_of_lt (by omega)
    simp only [sendFrames, hsrc, hok, hstep, startBuffer_len, hmod, List.map_cons, List.map_nil,
      List.sum_cons, List.sum_nil, Nat.add_zero, List.length_singleton, List.replicate,
      SendFrameCall.payload, List.flatten, List.append_nil, bytesAt_memcpy_append,
      true_and]
  | cons c1 cs ih =>
    intro c w hpow hfree hvalid hframe hhal htotal
    obtain ⟨hsome, hpos⟩ := hvalid c (List.mem_cons_self _ _)
    obtain ⟨src, hsrc⟩ := Option.isSome_iff_exists.mp hsome
    have hfrag : c.flags &&& ARM_ETH_MAC_TX_FRAME_FRAGMENT ≠ 0 := hframe.1
    have hstep := sendFrame_fragment_eq cfg c.heth c.hal w src c.len c.flags (by omega) hpow
      hfree hfrag
    simp only [List.map_cons, List.sum_cons] at htotal
    have hmod : (w.eth_mac0_rw_info.tx_buf.len + c.len) % 2 ^ 32
        = w.eth_mac0_rw_info.tx_buf.len + c.len := Nat.mod_eq_of_lt (by omega)
    rw [startBuffer_len, hmod] at hstep
    have hne : w.eth_mac0_rw_info.tx_buf.len + c.len ≠ 0 := by omega
    have ih1 := ih c1 (ETH_MAC_SendFrame cfg c.heth c.hal w c.frame c.len c.flags).2
      (by rw [hsrc, hstep]; exact hpow)
      (by rw [hsrc, hstep]; intro h; exact absurd h hne)
      (fun x hx => hvalid x (List.mem_cons_of_mem _ hx))
      hframe.2
      (by intro x hx; apply hhal x; simpa [List.getLast?_cons_cons] using hx)
      (by rw [hsrc, hstep]; simp only [List.map_cons, List.sum_cons]; omega)
    obtain ⟨ihr, ihc, ihl⟩ := ih1
    have hsb : startBuffer cfg c1.heth
        (ETH_MAC_SendFrame cfg c.heth c.hal w c.frame c.len c.flags).2
        = { startBuffer cfg c.heth w with len := w.eth_mac0_rw_info.tx_buf.len + c.len } := by
      rw [hsrc, hstep]
      simp [startBuffer, hne]
    refine ⟨?_, ?_, ?_⟩
    · show (ETH_MAC_SendFrame cfg c.heth c.hal w c.frame c.len c.flags).1 ::
        (sendFrames cfg (ETH_MAC_SendFrame cfg c.heth c.hal w c.frame c.len c.flags).2
          (c1 :: cs)).1 = _
      rw [ihr, hsrc, hstep]
      rfl
    · show (sendFrames cfg (ETH_MAC_SendFrame cfg c.heth c.hal w c.frame c.len c.flags).2
          (c1 :: cs)).2.calls = _
      rw [ihc, hsb]
      rw [hsrc, hstep]
      simp only [List.map_cons, List.sum_cons, List.flatten, SendFrameCall.payload, hsrc,
        bytesAt_memcpy_append, List.append_assoc, Nat.add_assoc]
    · exact ihl

/-- `ETH_MAC_SendFrame` never writes the driver status. -/
theorem sendFrame_drv_status (cfg : Config) (heth : ETH_HandleTypeDef) (hal : HAL_StatusTypeDef)
    (w : World) (frame : Option (Nat → Nat)) (len flags : Nat) :
    (ETH_MAC_SendFrame cfg heth hal w frame len flags).2.eth_mac0_rw_info.drv_status
      = w.eth_mac0_rw_info.drv_status := by
  unfold ETH_MAC_SendFrame
  cases frame with
  | none => rfl
  | some src =>
    by_cases hlen : len = 0 <;>
    by_cases hpow : w.eth_mac0_rw_info.drv_status.powered = false <;>
    by_cases h0 : w.eth_mac0_rw_info.tx_buf.len = 0 <;>
    by_cases hown : tx_desc_own cfg (heth.TxDescList.TxDesc heth.TxDescList.CurTxDesc) = true <;>
    by_cases hfrag : flags &&& ARM_ETH_MAC_TX_FRAME_FRAGMENT ≠ 0 <;>
    by_cases hh : hal = HAL_OK <;>
    simp [hlen, hpow, h0, hown, hfrag, hh]

/-- A call of `ETH_MAC_SendFrame` with the fragment flag set makes no call out of the driver. -/
theorem sendFrame_fragment_calls (cfg : Config) (heth : ETH_HandleTypeDef)
    (hal : HAL_StatusTypeDef) (w : World) (frame : Option (Nat → Nat)) (len flags : Nat)
    (hfrag : flags &&& ARM_ETH_MAC_TX_FRAME_FRAGMENT ≠ 0) :
    (ETH_MAC_SendFrame cfg heth hal w frame len flags).2.calls = w.calls := by
  unfold ETH_MAC_SendFrame
  cases frame with
  | none => rfl
  | some src =>
    by_cases hlen : len = 0 <;>
    by_cases hpow : w.eth_mac0_rw_info.drv_status.powered = false <;>
    by_cases h0 : w.eth_mac0_rw_info.tx_buf.len = 0 <;>
    by_cases hown : tx_desc_own cfg (heth.TxDescList.TxDesc heth.TxDescList.CurTxDesc) = true <;>
    simp [hlen, hpow, h0, hown, hfrag]

/-- A valid call of `ETH_MAC_SendFrame` without the fragment flag, on a powered driver and not
rejected as busy, makes exactly one call out of the driver, to `HAL_ETH_Transmit_IT`. -/
theorem sendFrame_final_calls (cfg : Config) (heth : ETH_HandleTypeDef)
    (hal : HAL_StatusTypeDef) (w : World) (src : Nat → Nat) (len flags : Nat)
    (hlen : len ≠ 0) (hpow : w.eth_mac0_rw_info.drv_status.powered = true)
    (hfree : w.eth_mac0_rw_info.tx_buf.len = 0 →
      tx_desc_own cfg (heth.TxDescList.TxDesc heth.TxDescList.CurTxDesc) = false)
    (hfinal : ¬ flags &&& ARM_ETH_MAC_TX_FRAME_FRAGMENT ≠ 0) :
    ∃ TxConfig tx_buf data,
      (ETH_MAC_SendFrame cfg heth hal w (some src) len flags).2.calls
        = w.calls ++ [Call.HAL_ETH_Transmit_IT TxConfig tx_buf data] := by
  unfold ETH_MAC_SendFrame
  by_cases h0 : w.eth_mac0_rw_info.tx_buf.len = 0
  · by_cases hh : hal = HAL_OK
    · simp [hlen, hpow, h0, hfree h0, hfinal, hh]
    · simp [hlen, hpow, h0, hfree h0, hfinal, hh]
  · by_cases hh : hal = HAL_OK
    · simp [hlen, hpow, h0, hfinal, hh]
    · simp [hlen, hpow, h0, hfinal, hh]

/-- Calls made one after the other. -/
theorem sendFrames_append (cfg : Config) (cs ds : List SendFrameCall) (w : World) :
    sendFrames cfg w (cs ++ ds)
      = ((sendFrames cfg w cs).1 ++ (sendFrames cfg (sendFrames cfg w cs).2 ds).1,
         (sendFrames cfg (sendFrames cfg w cs).2 ds).2) := by
  induction cs generalizing w with
  | nil => simp [sendFrames]
  | cons c cs ih => simp [sendFrames, ih]

/-- Exactly the last call of a frame is final. -/
theorem isFrame_append_singleton (cs : List SendFrameCall) (c : SendFrameCall) :
    isFrame (cs ++ [c]) ↔ (∀ x ∈ cs, x.fragment) ∧ ¬ c.fragment := by
  induction cs with
  | nil => simp [isFrame]
  | cons d ds ih =>
    cases ds with
    | nil => simp [isFrame]
    | cons e es =>
      have : isFrame (d :: e :: es ++ [c]) ↔ d.fragment ∧ isFrame (e :: es ++ [c]) := by
        simp [isFrame]
      rw [this, ih]
      simp [and_assoc]

/-- Calls that all announce more fragments make no call out of the driver and leave the
driver status alone. -/
theorem sendFrames_fragments (cfg : Config) (cs : List SendFrameCall) (w : World)
    (hfrag : ∀ x ∈ cs, x.fragment) :
    (sendFrames cfg w cs).2.calls = w.calls ∧
    (sendFrames cfg w cs).2.eth_mac0_rw_info.drv_status = w.eth_mac0_rw_info.drv_status := by
  induction cs generalizing w with
  | nil => exact ⟨rfl, rfl⟩
  | cons c cs ih =>
    have h1 := ih (ETH_MAC_SendFrame cfg c.heth c.hal w c.frame c.len c.flags).2
      (fun x hx => hfrag x (List.mem_cons_of_mem _ hx))
    have h2 := sendFrame_fragment_calls cfg c.heth c.hal w c.frame c.len c.flags
      (hfrag c (List.mem_cons_self _ _))
    have h3 := sendFrame_drv_status cfg c.heth c.hal w c.frame c.len c.flags
    exact ⟨h1.1.trans h2, h1.2.trans h3⟩

/-- No HAL callback writes the driver status or the transmit buffer descriptor. -/
theorem callback_run_frame (cfg : Config) (w : World) (cb : Callback) :
    (cb.run cfg w).eth_mac0_rw_info.drv_status = w.eth_mac0_rw_info.drv_status ∧
    (cb.run cfg w).eth_mac0_rw_info.tx_buf = w.eth_mac0_rw_info.tx_buf := by
  cases cb with
  | RxAllocate => exact ⟨rfl, rfl⟩
  | RxLink buff Length => exact ⟨rfl, rfl⟩
  | TxCplt =>
    show (HAL_ETH_TxCpltCallback w).eth_mac0_rw_info.drv_status = _ ∧
      (HAL_ETH_TxCpltCallback w).eth_mac0_rw_info.tx_buf = _
    unfold HAL_ETH_TxCpltCallback; split <;> exact ⟨rfl, rfl⟩
  | RxCplt =>
    show (HAL_ETH_RxCpltCallback w).eth_mac0_rw_info.drv_status = _ ∧
      (HAL_ETH_RxCpltCallback w).eth_mac0_rw_info.tx_buf = _
    unfold HAL_ETH_RxCpltCallback; split <;> exact ⟨rfl, rfl⟩
  | PMT =>
    show (HAL_ETH_PMTCallback w).eth_mac0_rw_info.drv_status = _ ∧
      (HAL_ETH_PMTCallback w).eth_mac0_rw_info.tx_buf = _
    unfold HAL_ETH_PMTCallback; split <;> exact ⟨rfl, rfl⟩

/-- No sequence of HAL callbacks writes the driver status or the transmit buffer descriptor. -/
theorem callbacks_run_frame (cfg : Config) (cbs : List Callback) (w : World) :
    (cbs.foldl (Callback.run cfg) w).eth_mac0_rw_info.drv_status
      = w.eth_mac0_rw_info.drv_status ∧
    (cbs.foldl (Callback.run cfg) w).eth_mac0_rw_info.tx_buf = w.eth_mac0_rw_info.tx_buf := by
  induction cbs generalizing w with
  | nil => exact ⟨rfl, rfl⟩
  | cons cb cbs ih =>
    have h1 := ih (cb.run cfg w)
    have h2 := callback_run_frame cfg w cb
    exact ⟨h1.1.trans h2.1, h1.2.trans h2.2⟩

/-- `ETH_MAC_GetRxFrameSize` writes neither the driver status nor the transmit buffer
descriptor. -/
theorem getRxFrameSize_frame (cfg : Config) (during : List Callback) (hal : HAL_StatusTypeDef)
    (w : World) :
    (ETH_MAC_GetRxFrameSize cfg during hal w).2.eth_mac0_rw_info.drv_status
      = w.eth_mac0_rw_info.drv_status ∧
    (ETH_MAC_GetRxFrameSize cfg during hal w).2.eth_mac0_rw_info.tx_buf
      = w.eth_mac0_rw_info.tx_buf := by
  have h := callbacks_run_frame cfg during { w with calls := w.calls ++ [Call.HAL_ETH_ReadData] }
  unfold ETH_MAC_GetRxFrameSize
  split <;> exact h

/-- `ETH_MAC_ReadFrame` writes neither the driver status nor the transmit buffer descriptor. -/
theorem readFrame_frame (w : World) (frame : Option (Nat → Nat)) (len : Nat) :
    (ETH_MAC_ReadFrame w frame len).2.2.eth_mac0_rw_info.drv_status
      = w.eth_mac0_rw_info.drv_status ∧
    (ETH_MAC_ReadFrame w frame len).2.2.eth_mac0_rw_info.tx_buf
      = w.eth_mac0_rw_info.tx_buf := by
  unfold ETH_MAC_ReadFrame
  cases frame with
  | none => split_ifs <;> exact ⟨rfl, rfl⟩
  | some dst => split_ifs <;> exact ⟨rfl, rfl⟩

/-- The write position after `ETH_MAC_SendFrame` is the old one, the advanced one, or `0`. -/
theorem sendFrame_tx_len (cfg : Config) (heth : ETH_HandleTypeDef) (hal : HAL_StatusTypeDef)
    (w : World) (frame : Option (Nat → Nat)) (len flags : Nat) :
    (ETH_MAC_SendFrame cfg heth hal w frame len flags).2.eth_mac0_rw_info.tx_buf.len
        = w.eth_mac0_rw_info.tx_buf.len ∨
    (ETH_MAC_SendFrame cfg heth hal w frame len flags).2.eth_mac0_rw_info.tx_buf.len
        = (w.eth_mac0_rw_info.tx_buf.len + len) % 2 ^ 32 ∨
    (ETH_MAC_SendFrame cfg heth hal w frame len flags).2.eth_mac0_rw_info.tx_buf.len = 0 := by
  unfold ETH_MAC_SendFrame
  cases frame with
  | none => exact Or.inl rfl
  | some src =>
    by_cases hlen : len = 0 <;>
    by_cases hpow : w.eth_mac0_rw_info.drv_status.powered = false <;>
    by_cases h0 : w.eth_mac0_rw_info.tx_buf.len = 0 <;>
    by_cases hown : tx_desc_own cfg (heth.TxDescList.TxDesc heth.TxDescList.CurTxDesc) = true <;>
    by_cases hfrag : flags &&& ARM_ETH_MAC_TX_FRAME_FRAGMENT ≠ 0 <;>
    by_cases hh : hal = HAL_OK <;>
    simp [hlen, hpow, h0, hown, hfrag, hh]

/-- The write position after `ETH_MAC_PowerControl` is the old one or `0`. -/
theorem powerControl_tx_len (hal : HAL_StatusTypeDef) (w : World) (state : Nat) :
    (ETH_MAC_PowerControl hal w state).2.eth_mac0_rw_info.tx_buf.len
        = w.eth_mac0_rw_info.tx_buf.len ∨
    (ETH_MAC_PowerControl hal w state).2.eth_mac0_rw_info.tx_buf.len = 0 := by
  unfold ETH_MAC_PowerControl
  split_ifs <;> first | exact Or.inl rfl | exact Or.inr rfl

/-- One event that meets the caller's obligation keeps the write position within one staging
region. -/
theorem step_tx_len_le (cfg : Config) (w : World) (op : Op)
    (hw : w.eth_mac0_rw_info.tx_buf.len ≤ cfg.ETH_MAX_PACKET_SIZE)
    (hop : op.withinCapacity cfg w) :
    (op.step cfg w).eth_mac0_rw_info.tx_buf.len ≤ cfg.ETH_MAX_PACKET_SIZE := by
  cases op with
  | Initialize cb_event => exact Nat.zero_le _
  | Uninitialize hal => exact Nat.zero_le _
  | PowerControl hal state =>
    rcases powerControl_tx_len hal w state with h | h
    · exact h ▸ hw
    · exact h ▸ Nat.zero_le _
  | SendFrame heth hal frame len flags =>
    have hop2 : w.eth_mac0_rw_info.tx_buf.len + len ≤ cfg.ETH_MAX_PACKET_SIZE := hop
    have hmod := Nat.mod_le (w.eth_mac0_rw_info.tx_buf.len + len) (2 ^ 32)
    show (ETH_MAC_SendFrame cfg heth hal w frame len flags).2.eth_mac0_rw_info.tx_buf.len ≤ _
    rcases sendFrame_tx_len cfg heth hal w frame len flags with h | h | h <;> omega
  | ReadFrame frame len =>
    show (ETH_MAC_ReadFrame w frame len).2.2.eth_mac0_rw_info.tx_buf.len ≤ _
    rw [(readFrame_frame w frame len).2]; exact hw
  | GetRxFrameSize during hal =>
    show (ETH_MAC_GetRxFrameSize cfg during hal w).2.eth_mac0_rw_info.tx_buf.len ≤ _
    rw [(getRxFrameSize_frame cfg during hal w).2]; exact hw
  | Callback cb =>
    show (cb.run cfg w).eth_mac0_rw_info.tx_buf.len ≤ _
    rw [(callback_run_frame cfg w cb).2]; exact hw
  | DMA addr byte => exact hw

/-- Events that all meet the caller's obligation keep the write position within one staging
region. -/
theorem run_tx_len_le (cfg : Config) (ops : List Op) (w : World)
    (hw : w.eth_mac0_rw_info.tx_buf.len ≤ cfg.ETH_MAX_PACKET_SIZE)
    (hops : withinCapacity cfg w ops) :
    (run cfg w ops).eth_mac0_rw_info.tx_buf.len ≤ cfg.ETH_MAX_PACKET_SIZE := by
  induction ops generalizing w with
  | nil => exact hw
  | cons op ops ih => exact ih (op.step cfg w) (step_tx_len_le cfg w op hw hops.1) hops.2

/-! ## Transmit path -/

/-- C1, transmit concatenation: from a powered driver with no assembly in progress and a free
current transmit descriptor, a frame passed as valid fragments whose total length fits one
staging region, with `HAL_ETH_Transmit_IT` succeeding, makes every call return
`ARM_DRIVER_OK`, hands to `HAL_ETH_Transmit_IT` the pool region of the current transmit index
holding exactly the payloads in call order, with `TxConfig.Length` the sum of the lengths, and
leaves `tx_buf.len` at `0`. -/
theorem sendFrame_concatenates (cfg : Config) (w : World) (c : SendFrameCall)
    (cs : List SendFrameCall)
    (hcap : cfg.ETH_MAX_PACKET_SIZE < 2 ^ 32)
    (hpow : w.eth_mac0_rw_info.drv_status.powered = true)
    (hidle : w.eth_mac0_rw_info.tx_buf.len = 0)
    (hfree : c.own cfg = false)
    (hvalid : ∀ x ∈ c :: cs, x.valid)
    (hframe : isFrame (c :: cs))
    (hhal : ∀ x ∈ (c :: cs).getLast?, x.hal = HAL_OK)
    (htotal : ((c :: cs).map (fun x => x.len)).sum ≤ cfg.ETH_MAX_PACKET_SIZE) :
    (sendFrames cfg w (c :: cs)).1 = List.replicate (c :: cs).length ARM_DRIVER_OK ∧
    (sendFrames cfg w (c :: cs)).2.calls = w.calls ++
      [Call.HAL_ETH_Transmit_IT
        { TxBuffer := true, Length := ((c :: cs).map (fun x => x.len)).sum }
        { buffer := eth_mac0_tx_buf cfg c.heth.TxDescList.CurTxDesc,
          len := ((c :: cs).map (fun x => x.len)).sum,
          next := NULL }
        ((c :: cs).map SendFrameCall.payload).flatten] ∧
    (sendFrames cfg w (c :: cs)).2.eth_mac0_rw_info.tx_buf.len = 0 := by
  have h := sendFrames_frame cfg hcap cs c w hpow (fun _ => hfree) hvalid hframe hhal
    (by rw [hidle]; omega)
  simpa [hidle, startBuffer, bytesAt] using h

/-- Witness of C1: the fragments "AB" then "CD" give one submission of "ABCD", length 4. -/
theorem sendFrame_concatenates_witness :
    (sendFrames exampleConfig poweredWorld [fragmentAB, finalCD]).1
      = [ARM_DRIVER_OK, ARM_DRIVER_OK] ∧
    (sendFrames exampleConfig poweredWorld [fragmentAB, finalCD]).2.calls =
      [Call.HAL_ETH_Init,
       Call.HAL_ETH_Transmit_IT { TxBuffer := true, Length := 4 }
         { buffer := 0x30041900, len := 4, next := NULL } [65, 66, 67, 68]] ∧
    (sendFrames exampleConfig poweredWorld [fragmentAB, finalCD]).2.eth_mac0_rw_info.tx_buf.len
      = 0 :=
  sendFrame_concatenates exampleConfig poweredWorld fragmentAB [finalCD]
    (by decide) rfl rfl rfl
    (by
      intro x hx
      simp only [List.mem_cons, List.mem_singleton, List.not_mem_nil, or_false] at hx
      rcases hx with rfl | rfl <;> exact ⟨rfl, by decide⟩)
    ⟨by decide, by decide⟩
    (by
      intro x hx
      simp only [List.getLast?_cons_cons, List.getLast?_singleton, Option.mem_def,
        Option.some.injEq] at hx
      subst hx
      rfl)
    (by decide)

/-- C2, one hardware submission per frame: in every state and for all arguments a call of
`ETH_MAC_SendFrame` with the fragment flag set makes no call to `HAL_ETH_Transmit_IT` (it makes
no call at all); and for valid calls making up one frame, from a powered driver with no
assembly in progress and the current transmit descriptor free, the calls before the last make
no call and the whole sequence makes exactly one, to `HAL_ETH_Transmit_IT`, whatever status
the HAL returns. -/
theorem sendFrame_one_submission (cfg : Config) :
    (∀ (heth : ETH_HandleTypeDef) (hal : HAL_StatusTypeDef) (w : World)
        (frame : Option (Nat → Nat)) (len flags : Nat),
        flags &&& ARM_ETH_MAC_TX_FRAME_FRAGMENT ≠ 0 →
        (ETH_MAC_SendFrame cfg heth hal w frame len flags).2.calls = w.calls) ∧
    (∀ (w : World) (cs : List SendFrameCall) (c : SendFrameCall),
        w.eth_mac0_rw_info.drv_status.powered = true →
        w.eth_mac0_rw_info.tx_buf.len = 0 →
        (∀ x ∈ cs ++ [c], x.own cfg = false) →
        (∀ x ∈ cs ++ [c], x.valid) →
        isFrame (cs ++ [c]) →
        (sendFrames cfg w cs).2.calls = w.calls ∧
        ∃ TxConfig tx_buf data,
          (sendFrames cfg w (cs ++ [c])).2.calls
            = w.calls ++ [Call.HAL_ETH_Transmit_IT TxConfig tx_buf data]) := by
  refine ⟨fun heth hal w frame len flags h =>
    sendFrame_fragment_calls cfg heth hal w frame len flags h, ?_⟩
  intro w cs c hpow _ hfree hvalid hframe
  obtain ⟨hfrag, hfinal⟩ := (isFrame_append_singleton cs c).mp hframe
  obtain ⟨hcalls, hstatus⟩ := sendFrames_fragments cfg cs w hfrag
  refine ⟨hcalls, ?_⟩
  obtain ⟨hsome, hpos⟩ := hvalid c (by simp)
  obtain ⟨src, hsrc⟩ := Option.isSome_iff_exists.mp hsome
  have hown : c.own cfg = false := hfree c (by simp)
  obtain ⟨t, b, d, h⟩ := sendFrame_final_calls cfg c.heth c.hal (sendFrames cfg w cs).2 src
    c.len c.flags (by omega) (by rw [hstatus]; exact hpow) (fun _ => hown) hfinal
  refine ⟨t, b, d, ?_⟩
  rw [sendFrames_append]
  simp only [sendFrames, hsrc, h, hcalls]

/-- Witness of C2: the fragment "AB" makes no call, "AB" then "CD" make one submission. -/
theorem sendFrame_one_submission_witness :
    (sendFrames exampleConfig poweredWorld [fragmentAB]).2.calls = poweredWorld.calls ∧
    ∃ TxConfig tx_buf data,
      (sendFrames exampleConfig poweredWorld ([fragmentAB] ++ [finalCD])).2.calls
        = poweredWorld.calls ++ [Call.HAL_ETH_Transmit_IT TxConfig tx_buf data] :=
  (sendFrame_one_submission exampleConfig).2 poweredWorld [fragmentAB] finalCD rfl rfl
    (by
      intro x hx
      simp only [List.singleton_append, List.mem_cons, List.mem_singleton, List.not_mem_nil,
        or_false] at hx
      rcases hx with rfl | rfl <;> rfl)
    (by
      intro x hx
      simp only [List.singleton_append, List.mem_cons, List.mem_singleton, List.not_mem_nil,
        or_false] at hx
      rcases hx with rfl | rfl <;> exact ⟨rfl, by decide⟩)
    ⟨by decide, by decide⟩

/-- C3, busy only at the start of a frame and atomically: for a powered driver and valid
arguments `ETH_MAC_SendFrame` returns `ARM_DRIVER_ERROR_BUSY` if and only if `tx_buf.len` is
`0` and the descriptor at the current transmit index is owned by the hardware; in that case
the world is unchanged (no byte copied, run-time record as before, no call made); and when
`tx_buf.len` is not `0` the result is never `ARM_DRIVER_ERROR_BUSY`. -/
theorem sendFrame_busy_iff (cfg : Config) (heth : ETH_HandleTypeDef) (hal : HAL_StatusTypeDef)
    (w : World) (src : Nat → Nat) (len flags : Nat)
    (hpow : w.eth_mac0_rw_info.drv_status.powered = true) (hlen : 0 < len) :
    ((ETH_MAC_SendFrame cfg heth hal w (some src) len flags).1 = ARM_DRIVER_ERROR_BUSY ↔
      (w.eth_mac0_rw_info.tx_buf.len = 0 ∧
        tx_desc_own cfg (heth.TxDescList.TxDesc heth.TxDescList.CurTxDesc) = true)) ∧
    ((w.eth_mac0_rw_info.tx_buf.len = 0 ∧
        tx_desc_own cfg (heth.TxDescList.TxDesc heth.TxDescList.CurTxDesc) = true) →
      ETH_MAC_SendFrame cfg heth hal w (some src) len flags = (ARM_DRIVER_ERROR_BUSY, w)) ∧
    (0 < w.eth_mac0_rw_info.tx_buf.len →
      (ETH_MAC_SendFrame cfg heth hal w (some src) len flags).1 ≠ ARM_DRIVER_ERROR_BUSY) := by
  have hlen0 : len ≠ 0 := by omega
  unfold ETH_MAC_SendFrame
  by_cases h0 : w.eth_mac0_rw_info.tx_buf.len = 0 <;>
  by_cases hown : tx_desc_own cfg (heth.TxDescList.TxDesc heth.TxDescList.CurTxDesc) = true <;>
  by_cases hfrag : flags &&& ARM_ETH_MAC_TX_FRAME_FRAGMENT ≠ 0 <;>
  by_cases hh : hal = HAL_OK <;>
  simp [hlen0, hpow, h0, hown, hfrag, hh, ARM_DRIVER_OK, ARM_DRIVER_ERROR,
    ARM_DRIVER_ERROR_BUSY]

/-- Witness of C3: a new frame against an owned descriptor is rejected, a fragment arriving
mid-frame against the same descriptor is not. -/
theorem sendFrame_busy_iff_witness :
    ((ETH_MAC_SendFrame exampleConfig hethBusy HAL_OK poweredWorld (some (bufferOf [65, 66])) 2 0).1
        = ARM_DRIVER_ERROR_BUSY ↔
      (poweredWorld.eth_mac0_rw_info.tx_buf.len = 0 ∧
        tx_desc_own exampleConfig
          (hethBusy.TxDescList.TxDesc hethBusy.TxDescList.CurTxDesc) = true)) ∧
    ((poweredWorld.eth_mac0_rw_info.tx_buf.len = 0 ∧
        tx_desc_own exampleConfig
          (hethBusy.TxDescList.TxDesc hethBusy.TxDescList.CurTxDesc) = true) →
      ETH_MAC_SendFrame exampleConfig hethBusy HAL_OK poweredWorld (some (bufferOf [65, 66])) 2 0
        = (ARM_DRIVER_ERROR_BUSY, poweredWorld)) ∧
    (0 < poweredWorld.eth_mac0_rw_info.tx_buf.len →
      (ETH_MAC_SendFrame exampleConfig hethBusy HAL_OK poweredWorld
        (some (bufferOf [65, 66])) 2 0).1 ≠ ARM_DRIVER_ERROR_BUSY) :=
  sendFrame_busy_iff exampleConfig hethBusy HAL_OK poweredWorld (bufferOf [65, 66]) 2 0 rfl
    (by decide)

/-- C4 on the code: a final call whose submission fails returns `ARM_DRIVER_ERROR` and leaves
`tx_buf.len` at the frame length (here `2`), while the same call with a successful submission
returns `ARM_DRIVER_OK` and leaves it at `0`; after the failure the next frame "CD" is
appended to the stale bytes and the hardware is handed "ABCD". -/
theorem sendFrame_failed_submission_keeps_len :
    (ETH_MAC_SendFrame exampleConfig hethFree HAL_ERROR poweredWorld
      (some (bufferOf [65, 66])) 2 0).1 = ARM_DRIVER_ERROR ∧
    (ETH_MAC_SendFrame exampleConfig hethFree HAL_ERROR poweredWorld
      (some (bufferOf [65, 66])) 2 0).2.eth_mac0_rw_info.tx_buf.len = 2 ∧
    (ETH_MAC_SendFrame exampleConfig hethFree HAL_OK poweredWorld
      (some (bufferOf [65, 66])) 2 0).1 = ARM_DRIVER_OK ∧
    (ETH_MAC_SendFrame exampleConfig hethFree HAL_OK poweredWorld
      (some (bufferOf [65, 66])) 2 0).2.eth_mac0_rw_info.tx_buf.len = 0 ∧
    (ETH_MAC_SendFrame exampleConfig hethFree HAL_OK
      (ETH_MAC_SendFrame exampleConfig hethFree HAL_ERROR poweredWorld
        (some (bufferOf [65, 66])) 2 0).2
      (some (bufferOf [67, 68])) 2 0).2.calls.getLast? =
      some (Call.HAL_ETH_Transmit_IT { TxBuffer := true, Length := 4 }
        { buffer := 0x30041900, len := 4, next := NULL } [65, 66, 67, 68]) := by
  refine ⟨by decide, by decide, by decide, by decide, by decide⟩

/-- C5 fails as stated: after `Initialize` and `PowerControl (ARM_POWER_FULL)` a fragment of
1525 bytes is accepted with `ARM_DRIVER_OK` although a staging region holds 1524; the reached
state has `tx_buf.len = 1525`, and the last byte was written to the first byte of the next
pool region. -/
theorem staging_capacity_counterexample :
    (ETH_MAC_SendFrame exampleConfig hethFree HAL_OK
      (run exampleConfig (World.reset { TxBuffer := false, Length := 0 } (fun _ => 0))
        [Op.Initialize 7, Op.PowerControl HAL_OK ARM_POWER_FULL])
      (some (fun _ => 255)) 1525 ARM_ETH_MAC_TX_FRAME_FRAGMENT).1 = ARM_DRIVER_OK ∧
    exampleConfig.ETH_MAX_PACKET_SIZE <
      (run exampleConfig (World.reset { TxBuffer := false, Length := 0 } (fun _ => 0))
        [Op.Initialize 7, Op.PowerControl HAL_OK ARM_POWER_FULL,
         Op.SendFrame hethFree HAL_OK (some (fun _ => 255)) 1525
           ARM_ETH_MAC_TX_FRAME_FRAGMENT]).eth_mac0_rw_info.tx_buf.len ∧
    (run exampleConfig (World.reset { TxBuffer := false, Length := 0 } (fun _ => 0))
        [Op.Initialize 7, Op.PowerControl HAL_OK ARM_POWER_FULL,
         Op.SendFrame hethFree HAL_OK (some (fun _ => 255)) 1525
           ARM_ETH_MAC_TX_FRAME_FRAGMENT]).mem (eth_mac0_tx_buf exampleConfig 1) = 255 := by
  refine ⟨by decide, by decide, by decide⟩

/-- C5 as amended: the driver has no capacity check, keeping within a staging region is the
caller's obligation.  In every state reached from program start by driver operations, HAL
callbacks and DMA writes in which each `ETH_MAC_SendFrame` call has
`tx_buf.len + len ≤ ETH_MAX_PACKET_SIZE`, `tx_buf.len` is at most `ETH_MAX_PACKET_SIZE`; and a
valid call on a powered driver that is not rejected as busy, and is a fragment or has its
submission accepted, returns `ARM_DRIVER_OK` and copies all `len` bytes to the write position,
whatever `len` is. -/
theorem staging_capacity_caller (cfg : Config) :
    (∀ (TxConfig : ETH_TxPacketConfig) (mem : Nat → Nat) (ops : List Op),
        withinCapacity cfg (World.reset TxConfig mem) ops →
        (run cfg (World.reset TxConfig mem) ops).eth_mac0_rw_info.tx_buf.len
          ≤ cfg.ETH_MAX_PACKET_SIZE) ∧
    (∀ (heth : ETH_HandleTypeDef) (hal : HAL_StatusTypeDef) (w : World) (src : Nat → Nat)
        (len flags : Nat),
        w.eth_mac0_rw_info.drv_status.powered = true →
        0 < len →
        (w.eth_mac0_rw_info.tx_buf.len = 0 →
          tx_desc_own cfg (heth.TxDescList.TxDesc heth.TxDescList.CurTxDesc) = false) →
        (flags &&& ARM_ETH_MAC_TX_FRAME_FRAGMENT ≠ 0 ∨ hal = HAL_OK) →
        (ETH_MAC_SendFrame cfg heth hal w (some src) len flags).1 = ARM_DRIVER_OK ∧
        (ETH_MAC_SendFrame cfg heth hal w (some src) len flags).2.mem
          = memcpy w.mem ((startBuffer cfg heth w).buffer + w.eth_mac0_rw_info.tx_buf.len)
              src len) := by
  refine ⟨fun TxConfig mem ops hops =>
    run_tx_len_le cfg ops (World.reset TxConfig mem) (Nat.zero_le _) hops, ?_⟩
  intro heth hal w src len flags hpow hlen hfree hacc
  have hlen0 : len ≠ 0 := by omega
  by_cases hfrag : flags &&& ARM_ETH_MAC_TX_FRAME_FRAGMENT ≠ 0
  · rw [sendFrame_fragment_eq cfg heth hal w src len flags hlen0 hpow hfree hfrag,
      startBuffer_len]
    exact ⟨rfl, rfl⟩
  · have hok : hal = HAL_OK := hacc.resolve_left hfrag
    rw [hok, sendFrame_final_eq cfg heth w src len flags hlen0 hpow hfree hfrag,
      startBuffer_len]
    exact ⟨rfl, rfl⟩

/-- Witness of C5 as amended: "AB" then "CD" after power-up stay within capacity. -/
theorem staging_capacity_caller_witness :
    (run exampleConfig (World.reset { TxBuffer := false, Length := 0 } (fun _ => 0))
      [Op.Initialize 7, Op.PowerControl HAL_OK ARM_POWER_FULL,
       Op.SendFrame hethFree HAL_OK (some (bufferOf [65, 66])) 2 ARM_ETH_MAC_TX_FRAME_FRAGMENT,
       Op.SendFrame hethFree HAL_OK (some (bufferOf [67, 68])) 2 0]).eth_mac0_rw_info.tx_buf.len
      ≤ exampleConfig.ETH_MAX_PACKET_SIZE :=
  (staging_capacity_caller exampleConfig).1 { TxBuffer := false, Length := 0 } (fun _ => 0)
    [Op.Initialize 7, Op.PowerControl HAL_OK ARM_POWER_FULL,
     Op.SendFrame hethFree HAL_OK (some (bufferOf [65, 66])) 2 ARM_ETH_MAC_TX_FRAME_FRAGMENT,
     Op.SendFrame hethFree HAL_OK (some (bufferOf [67, 68])) 2 0]
    (by decide)

/-! ## Receive path -/

/-- Link notifications write only the receive buffer descriptor, and the last one decides its
`buffer` and `len`. -/
theorem rxLinks_last (w : World) (ns : List (Nat × Nat)) (b l : Nat)
    (hlast : ns.getLast? = some (b, l)) :
    (rxLinks w ns).eth_mac0_rw_info.rx_buf.buffer = b ∧
    (rxLinks w ns).eth_mac0_rw_info.rx_buf.len = l ∧
    (rxLinks w ns).eth_mac0_rw_info.drv_status = w.eth_mac0_rw_info.drv_status ∧
    (rxLinks w ns).mem = w.mem := by
  obtain ⟨ys, rfl⟩ := List.getLast?_eq_some_iff.mp hlast
  have hframe : ∀ (zs : List (Nat × Nat)) (v : World),
      (rxLinks v zs).eth_mac0_rw_info.drv_status = v.eth_mac0_rw_info.drv_status ∧
      (rxLinks v zs).mem = v.mem := by
    intro zs
    induction zs with
    | nil => intro v; exact ⟨rfl, rfl⟩
    | cons z zs ih => intro v; exact ih (HAL_ETH_RxLinkCallback v z.1 z.2)
  have h := hframe ys w
  unfold rxLinks at h ⊢
  rw [List.foldl_append]
  exact ⟨rfl, rfl, h.1, h.2⟩

/-- A `uint32_t` up to `2 ^ 31 - 1` converts to the same `int32_t`. -/
theorem int32_of_uint32_small (n : Nat) (h : n ≤ 2 ^ 31 - 1) : int32_of_uint32 n = (n : Int) := by
  unfold int32_of_uint32
  have h1 : n % 2 ^ 32 = n := Nat.mod_eq_of_lt (by omega)
  rw [h1, if_pos (by omega)]

/-- After `memcpy (dst, src, n)` the first `n` bytes at `dst` are the first `n` bytes at
`src`. -/
theorem bytesAt_memcpy (dst : Nat → Nat) (mem : Nat → Nat) (b n : Nat) :
    bytesAt (memcpy dst 0 (fun i => mem (b + i)) n) 0 n = bytesAt mem b n := by
  unfold bytesAt memcpy
  apply List.map_congr_left
  intro i hi
  have hi2 := List.mem_range.mp hi
  have h1 : 0 ≤ 0 + i ∧ 0 + i < 0 + n := by omega
  show (if 0 ≤ 0 + i ∧ 0 + i < 0 + n then mem (b + (0 + i - 0)) else dst (0 + i)) = mem (b + i)
  rw [if_pos h1]
  congr 1
  omega

/-- C6, the most recent received frame is served exactly once, for a powered driver, a
non-null destination and `len ≤ 2 ^ 31 - 1`: (a) with no frame tracked `ETH_MAC_ReadFrame`
returns `0` and changes neither the destination nor the world; (b) after one or more link
notifications, the last one for a buffer `b`, it returns `len`, the first `len` bytes of the
destination are the first `len` bytes at `b`, the tracked pointer is cleared and an
immediately following `ETH_MAC_ReadFrame` returns `0`. -/
theorem readFrame_serves_last :
    (∀ (w : World) (dst : Nat → Nat) (len : Nat),
        w.eth_mac0_rw_info.drv_status.powered = true →
        w.eth_mac0_rw_info.rx_buf.buffer = NULL →
        len ≤ 2 ^ 31 - 1 →
        ETH_MAC_ReadFrame w (some dst) len = (0, some dst, w)) ∧
    (∀ (w : World) (ns : List (Nat × Nat)) (b l : Nat) (dst : Nat → Nat) (len : Nat)
        (dst2 : Nat → Nat) (len2 : Nat),
        w.eth_mac0_rw_info.drv_status.powered = true →
        ns.getLast? = some (b, l) →
        b ≠ NULL →
        len ≤ 2 ^ 31 - 1 →
        (ETH_MAC_ReadFrame (rxLinks w ns) (some dst) len).1 = (len : Int) ∧
        (ETH_MAC_ReadFrame (rxLinks w ns) (some dst) len).2.1.map (fun d => bytesAt d 0 len)
          = some (bytesAt (rxLinks w ns).mem b len) ∧
        (ETH_MAC_ReadFrame (rxLinks w ns) (some dst) len).2.2.eth_mac0_rw_info.rx_buf.buffer
          = NULL ∧
        (ETH_MAC_ReadFrame (ETH_MAC_ReadFrame (rxLinks w ns) (some dst) len).2.2
          (some dst2) len2).1 = 0) := by
  constructor
  · intro w dst len hpow hnull _
    unfold ETH_MAC_ReadFrame
    simp [hpow, hnull]
  · intro w ns b l dst len dst2 len2 hpow hlast hb hlen
    obtain ⟨h1, _, h3, _⟩ := rxLinks_last w ns b l hlast
    have hpow1 : (rxLinks w ns).eth_mac0_rw_info.drv_status.powered = true := by
      rw [h3]; exact hpow
    have hread : ETH_MAC_ReadFrame (rxLinks w ns) (some dst) len =
        (int32_of_uint32 len,
         some (memcpy dst 0 (fun i => (rxLinks w ns).mem (b + i)) len),
         { rxLinks w ns with eth_mac0_rw_info := { (rxLinks w ns).eth_mac0_rw_info with
             rx_buf := { (rxLinks w ns).eth_mac0_rw_info.rx_buf with buffer := NULL } } }) := by
      unfold ETH_MAC_ReadFrame
      simp [hpow1, h1, hb]
    rw [hread]
    refine ⟨int32_of_uint32_small len hlen, ?_, rfl, ?_⟩
    · simp only [Option.map_some', bytesAt_memcpy]
    · unfold ETH_MAC_ReadFrame
      simp [hpow1]

/-- Witness of C6: two link notifications, then a read of 4 bytes from the second buffer. -/
theorem readFrame_serves_last_witness :
    (ETH_MAC_ReadFrame (rxLinks poweredWorld [(0x30040100, 60), (0x300406F4, 64)])
      (some (bufferOf [])) 4).1 = ((4 : Nat) : Int) ∧
    (ETH_MAC_ReadFrame (rxLinks poweredWorld [(0x30040100, 60), (0x300406F4, 64)])
      (some (bufferOf [])) 4).2.1.map (fun d => bytesAt d 0 4)
      = some (bytesAt (rxLinks poweredWorld [(0x30040100, 60), (0x300406F4, 64)]).mem
          0x300406F4 4) ∧
    (ETH_MAC_ReadFrame (rxLinks poweredWorld [(0x30040100, 60), (0x300406F4, 64)])
      (some (bufferOf [])) 4).2.2.eth_mac0_rw_info.rx_buf.buffer = NULL ∧
    (ETH_MAC_ReadFrame
      (ETH_MAC_ReadFrame (rxLinks poweredWorld [(0x30040100, 60), (0x300406F4, 64)])
        (some (bufferOf [])) 4).2.2
      (some (bufferOf [])) 4).1 = 0 :=
  readFrame_serves_last.2 poweredWorld [(0x30040100, 60), (0x300406F4, 64)] 0x300406F4 64
    (bufferOf []) 4 (bufferOf []) 4 rfl rfl (by decide) (by decide)

/-- C7, parameter misuse is rejected first and atomically, in every state:
`ETH_MAC_SendFrame` with `frame == NULL` or `len == 0`, and `ETH_MAC_ReadFrame` with
`frame == NULL` and `len != 0`, return `ARM_DRIVER_ERROR_PARAMETER` and leave the world (run-time
record, memory, calls made) unchanged. -/
theorem parameter_misuse_rejected (cfg : Config) :
    (∀ (heth : ETH_HandleTypeDef) (hal : HAL_StatusTypeDef) (w : World)
        (frame : Option (Nat → Nat)) (len flags : Nat),
        frame = none ∨ len = 0 →
        ETH_MAC_SendFrame cfg heth hal w frame len flags = (ARM_DRIVER_ERROR_PARAMETER, w)) ∧
    (∀ (w : World) (len : Nat),
        len ≠ 0 →
        ETH_MAC_ReadFrame w none len = (ARM_DRIVER_ERROR_PARAMETER, none, w)) := by
  constructor
  · intro heth hal w frame len flags h
    unfold ETH_MAC_SendFrame
    cases frame with
    | none => rfl
    | some src =>
      have hlen : len = 0 := by simpa using h
      simp [hlen]
  · intro w len hlen
    unfold ETH_MAC_ReadFrame
    simp [hlen]

/-- Witness of C7: `SendFrame (NULL, 2, 0)` on the powered driver. -/
theorem parameter_misuse_rejected_witness :
    ETH_MAC_SendFrame exampleConfig hethFree HAL_OK poweredWorld none 2 0
      = (ARM_DRIVER_ERROR_PARAMETER, poweredWorld) :=
  (parameter_misuse_rejected exampleConfig).1 hethFree HAL_OK poweredWorld none 2 0
    (Or.inl rfl)

/-- Stepping an index below `n` and wrapping at `n` is the successor modulo `n`. -/
theorem succ_mod_wrap (k n : Nat) (hn : 0 < n) :
    (k + 1) % n = if k % n + 1 ≥ n then 0 else k % n + 1 := by
  have hlt : k % n < n := Nat.mod_lt k hn
  have h1 : (k + 1) % n = (k % n + 1) % n := by
    rw [Nat.add_mod, Nat.add_mod (k % n) 1 n, Nat.mod_mod]
  rw [h1]
  split
  · have : k % n + 1 = n := by omega
    rw [this, Nat.mod_self]
  · exact Nat.mod_eq_of_lt (by omega)

/-- From allocation index `0`, the index after `k` allocations is `k` modulo the pool size. -/
theorem allocate_alloc_idx (cfg : Config) (w : World)
    (hN1 : 1 ≤ cfg.ETH_RX_DESC_CNT) (hN2 : cfg.ETH_RX_DESC_CNT ≤ 255)
    (h0 : w.eth_mac0_rw_info.alloc_idx = 0) (k : Nat) :
    (allocate cfg w k).eth_mac0_rw_info.alloc_idx = k % cfg.ETH_RX_DESC_CNT := by
  induction k with
  | zero => rw [Nat.zero_mod]; exact h0
  | succ k ih =>
    have hlt : k % cfg.ETH_RX_DESC_CNT < cfg.ETH_RX_DESC_CNT := Nat.mod_lt k (by omega)
    have hmod : (k % cfg.ETH_RX_DESC_CNT + 1) % 2 ^ 8 = k % cfg.ETH_RX_DESC_CNT + 1 :=
      Nat.mod_eq_of_lt (by omega)
    show (if ((allocate cfg w k).eth_mac0_rw_info.alloc_idx + 1) % 2 ^ 8 ≥ cfg.ETH_RX_DESC_CNT
      then 0 else ((allocate cfg w k).eth_mac0_rw_info.alloc_idx + 1) % 2 ^ 8) = _
    rw [ih, hmod, succ_mod_wrap k cfg.ETH_RX_DESC_CNT (by omega)]

/-- C8, round-robin receive allocation: with pool size `N = ETH_RX_DESC_CNT`, `1 ≤ N ≤ 255`,
and `alloc_idx = 0`, the `(k+1)`-th call of `HAL_ETH_RxAllocateCallback` returns the address of
pool region `k mod N`; `alloc_idx < N` holds before and after every allocation; and any `N`
consecutive allocations return pairwise distinct regions. -/
theorem rxAllocate_round_robin (cfg : Config) (w : World)
    (hN1 : 1 ≤ cfg.ETH_RX_DESC_CNT) (hN2 : cfg.ETH_RX_DESC_CNT ≤ 255)
    (h0 : w.eth_mac0_rw_info.alloc_idx = 0) :
    (∀ k, (HAL_ETH_RxAllocateCallback cfg (allocate cfg w k)).1
        = eth_mac0_rx_buf cfg (k % cfg.ETH_RX_DESC_CNT)) ∧
    (∀ k, (allocate cfg w k).eth_mac0_rw_info.alloc_idx < cfg.ETH_RX_DESC_CNT) ∧
    (0 < cfg.ETH_MAX_PACKET_SIZE → ∀ k i j, i < j → j < cfg.ETH_RX_DESC_CNT →
      (HAL_ETH_RxAllocateCallback cfg (allocate cfg w (k + i))).1
        ≠ (HAL_ETH_RxAllocateCallback cfg (allocate cfg w (k + j))).1) := by
  have hret : ∀ k, (HAL_ETH_RxAllocateCallback cfg (allocate cfg w k)).1
      = eth_mac0_rx_buf cfg (k % cfg.ETH_RX_DESC_CNT) := by
    intro k
    show eth_mac0_rx_buf cfg (allocate cfg w k).eth_mac0_rw_info.alloc_idx = _
    rw [allocate_alloc_idx cfg w hN1 hN2 h0 k]
  refine ⟨hret, ?_, ?_⟩
  · intro k
    rw [allocate_alloc_idx cfg w hN1 hN2 h0 k]
    exact Nat.mod_lt k (by omega)
  · intro hsize k i j hij hj heq
    rw [hret, hret] at heq
    unfold eth_mac0_rx_buf at heq
    have hidx : (k + i) % cfg.ETH_RX_DESC_CNT = (k + j) % cfg.ETH_RX_DESC_CNT :=
      Nat.eq_of_mul_eq_mul_right hsize (Nat.add_left_cancel heq)
    have hmod : i % cfg.ETH_RX_DESC_CNT = j % cfg.ETH_RX_DESC_CNT :=
      Nat.ModEq.add_left_cancel' k hidx
    rw [Nat.mod_eq_of_lt (by omega), Nat.mod_eq_of_lt hj] at hmod
    omega

/-- Witness of C8: with four regions of 1524 bytes at `0x30040100`, the sixth allocation
after `Initialize` returns region `1`. -/
theorem rxAllocate_round_robin_witness :
    (HAL_ETH_RxAllocateCallback exampleConfig
      (allocate exampleConfig
        ( ETH_MAC_Initialize (World.reset { TxBuffer := false, Length := 0 } (fun _ => 0)) 7).2
        5)).1 = eth_mac0_rx_buf exampleConfig (5 % exampleConfig.ETH_RX_DESC_CNT) :=
  (rxAllocate_round_robin exampleConfig
    ( ETH_MAC_Initialize (World.reset { TxBuffer := false, Length := 0 } (fun _ => 0)) 7).2
    (by decide) (by decide) rfl).1 5

/-! ## Driver status -/

/-- One event keeps `powered ⇒ initialized`. -/
theorem step_powered_initialized (cfg : Config) (w : World) (op : Op)
    (hw : w.eth_mac0_rw_info.drv_status.powered = true →
      w.eth_mac0_rw_info.drv_status.initialized = true) :
    (op.step cfg w).eth_mac0_rw_info.drv_status.powered = true →
      (op.step cfg w).eth_mac0_rw_info.drv_status.initialized = true := by
  cases op with
  | Initialize cb_event => intro _; rfl
  | Uninitialize hal => intro h; exact absurd h Bool.false_ne_true
  | PowerControl hal state =>
    show (ETH_MAC_PowerControl hal w state).2.eth_mac0_rw_info.drv_status.powered = true →
      (ETH_MAC_PowerControl hal w state).2.eth_mac0_rw_info.drv_status.initialized = true
    unfold ETH_MAC_PowerControl
    split_ifs with h1 h2 h3 h4 h5
    · exact hw
    · exact hw
    · intro _; simpa using h2
    · intro h; simp at h
    · exact hw
    · exact hw
  | SendFrame heth hal frame len flags =>
    show (ETH_MAC_SendFrame cfg heth hal w frame len flags).2.eth_mac0_rw_info.drv_status.powered
        = true →
      (ETH_MAC_SendFrame cfg heth hal w frame len flags).2.eth_mac0_rw_info.drv_status.initialized
        = true
    rw [sendFrame_drv_status]; exact hw
  | ReadFrame frame len =>
    show (ETH_MAC_ReadFrame w frame len).2.2.eth_mac0_rw_info.drv_status.powered = true →
      (ETH_MAC_ReadFrame w frame len).2.2.eth_mac0_rw_info.drv_status.initialized = true
    rw [(readFrame_frame w frame len).1]; exact hw
  | GetRxFrameSize during hal =>
    show (ETH_MAC_GetRxFrameSize cfg during hal w).2.eth_mac0_rw_info.drv_status.powered = true →
      (ETH_MAC_GetRxFrameSize cfg during hal w).2.eth_mac0_rw_info.drv_status.initialized = true
    rw [(getRxFrameSize_frame cfg during hal w).1]; exact hw
  | Callback cb =>
    show (cb.run cfg w).eth_mac0_rw_info.drv_status.powered = true →
      (cb.run cfg w).eth_mac0_rw_info.drv_status.initialized = true
    rw [(callback_run_frame cfg w cb).1]; exact hw
  | DMA addr byte => exact hw

/-- Any sequence of events keeps `powered ⇒ initialized`. -/
theorem run_powered_initialized (cfg : Config) (ops : List Op) (w : World)
    (hw : w.eth_mac0_rw_info.drv_status.powered = true →
      w.eth_mac0_rw_info.drv_status.initialized = true) :
    (run cfg w ops).eth_mac0_rw_info.drv_status.powered = true →
      (run cfg w ops).eth_mac0_rw_info.drv_status.initialized = true := by
  induction ops generalizing w with
  | nil => exact hw
  | cons op ops ih => exact ih (op.step cfg w) (step_powered_initialized cfg w op hw)

/-- C9, status invariant `powered ⇒ initialized`: in every state reached from the
zero-initialised run-time record by any sequence of `Initialize`, `Uninitialize`,
`PowerControl` (any state argument, the HAL succeeding or failing), `SendFrame`, `ReadFrame`,
`GetRxFrameSize`, the HAL callbacks and DMA writes, `powered = 1` implies `initialized = 1`. -/
theorem powered_implies_initialized (cfg : Config) (TxConfig : ETH_TxPacketConfig)
    (mem : Nat → Nat) (ops : List Op) :
    (run cfg (World.reset TxConfig mem) ops).eth_mac0_rw_info.drv_status.powered = true →
    (run cfg (World.reset TxConfig mem) ops).eth_mac0_rw_info.drv_status.initialized = true :=
  run_powered_initialized cfg ops (World.reset TxConfig mem)
    (fun h => absurd h Bool.false_ne_true)

/-- Witness of C9: after `Initialize` and a successful `PowerControl (ARM_POWER_FULL)` the
driver is powered, and initialized. -/
theorem powered_implies_initialized_witness :
    (run exampleConfig (World.reset { TxBuffer := false, Length := 0 } (fun _ => 0))
      [Op.Initialize 7, Op.PowerControl HAL_OK ARM_POWER_FULL]).eth_mac0_rw_info.drv_status.powered
      = true ∧
    (run exampleConfig (World.reset { TxBuffer := false, Length := 0 } (fun _ => 0))
      [Op.Initialize 7,
       Op.PowerControl HAL_OK ARM_POWER_FULL]).eth_mac0_rw_info.drv_status.initialized
      = true :=
  ⟨rfl, powered_implies_initialized exampleConfig { TxBuffer := false, Length := 0 } (fun _ => 0)
    [Op.Initialize 7, Op.PowerControl HAL_OK ARM_POWER_FULL] rfl⟩

/-- C10, `PowerControl (ARM_POWER_FULL)`: on a driver that is not initialized it returns
`ARM_DRIVER_ERROR` and leaves the world unchanged, so `HAL_ETH_Init` is not called; on an
initialized driver, powered or not, with `HAL_ETH_Init` succeeding it returns `ARM_DRIVER_OK`,
sets `powered` and resets `tx_buf.len` to `0`; with `HAL_ETH_Init` failing it returns
`ARM_DRIVER_ERROR` and leaves the run-time record, in particular `powered` and `tx_buf.len`,
unchanged. -/
theorem powerControl_full (hal : HAL_StatusTypeDef) (w : World) :
    (w.eth_mac0_rw_info.drv_status.initialized = false →
      ETH_MAC_PowerControl hal w ARM_POWER_FULL = (ARM_DRIVER_ERROR, w)) ∧
    (w.eth_mac0_rw_info.drv_status.initialized = true → hal = HAL_OK →
      (ETH_MAC_PowerControl hal w ARM_POWER_FULL).1 = ARM_DRIVER_OK ∧
      (ETH_MAC_PowerControl hal w ARM_POWER_FULL).2.eth_mac0_rw_info.drv_status.powered = true ∧
      (ETH_MAC_PowerControl hal w ARM_POWER_FULL).2.eth_mac0_rw_info.tx_buf.len = 0 ∧
      (ETH_MAC_PowerControl hal w ARM_POWER_FULL).2.calls = w.calls ++ [Call.HAL_ETH_Init]) ∧
    (w.eth_mac0_rw_info.drv_status.initialized = true → hal ≠ HAL_OK →
      (ETH_MAC_PowerControl hal w ARM_POWER_FULL).1 = ARM_DRIVER_ERROR ∧
      (ETH_MAC_PowerControl hal w ARM_POWER_FULL).2.eth_mac0_rw_info = w.eth_mac0_rw_info ∧
      (ETH_MAC_PowerControl hal w ARM_POWER_FULL).2.calls = w.calls ++ [Call.HAL_ETH_Init]) := by
  unfold ETH_MAC_PowerControl
  refine ⟨?_, ?_, ?_⟩
  · intro h; simp [h]
  · intro h hh; simp [h, hh]
  · intro h hh; simp [h, hh]

/-- Witness of C10: a successful power-up of the driver initialized from program start. -/
theorem powerControl_full_witness :
    (ETH_MAC_PowerControl HAL_OK
      ( ETH_MAC_Initialize (World.reset { TxBuffer := false, Length := 0 } (fun _ => 0)) 7).2
      ARM_POWER_FULL).1 = ARM_DRIVER_OK ∧
    (ETH_MAC_PowerControl HAL_OK
      ( ETH_MAC_Initialize (World.reset { TxBuffer := false, Length := 0 } (fun _ => 0)) 7).2
      ARM_POWER_FULL).2.eth_mac0_rw_info.drv_status.powered = true ∧
    (ETH_MAC_PowerControl HAL_OK
      ( ETH_MAC_Initialize (World.reset { TxBuffer := false, Length := 0 } (fun _ => 0)) 7).2
      ARM_POWER_FULL).2.eth_mac0_rw_info.tx_buf.len = 0 ∧
    (ETH_MAC_PowerControl HAL_OK
      ( ETH_MAC_Initialize (World.reset { TxBuffer := false, Length := 0 } (fun _ => 0)) 7).2
      ARM_POWER_FULL).2.calls
      = ( ETH_MAC_Initialize (World.reset { TxBuffer := false, Length := 0 } (fun _ => 0)) 7).2.calls
        ++ [Call.HAL_ETH_Init] :=
  (powerControl_full HAL_OK
    ( ETH_MAC_Initialize (World.reset { TxBuffer := false, Length := 0 } (fun _ => 0)) 7).2).2.1
    rfl rfl

/-- The `ARM_POWER_OFF` case of `ETH_MAC_PowerControl`, in every state: one `HAL_ETH_DeInit`
call, `powered` cleared, result `ARM_DRIVER_OK`. -/
theorem powerControl_off_eq (hal : HAL_StatusTypeDef) (w : World) :
    ETH_MAC_PowerControl hal w ARM_POWER_OFF =
      (ARM_DRIVER_OK,
       { w with
         eth_mac0_rw_info := { w.eth_mac0_rw_info with
           drv_status := { w.eth_mac0_rw_info.drv_status with powered := false } },
         calls := w.calls ++ [Call.HAL_ETH_DeInit] }) := by
  unfold ETH_MAC_PowerControl
  simp [ARM_POWER_OFF, ARM_POWER_FULL]

/-- C11, `PowerControl (ARM_POWER_OFF)` is lenient: from every state and whatever status
`HAL_ETH_DeInit` returns, the function calls `HAL_ETH_DeInit` once, returns `ARM_DRIVER_OK`,
clears `powered` and leaves every other field of the run-time record (`initialized`, the
callback, both buffer descriptors, the allocation index), the transmit configuration and
memory unchanged. -/
theorem powerControl_off (hal : HAL_StatusTypeDef) (w : World) :
    ETH_MAC_PowerControl hal w ARM_POWER_OFF =
      (ARM_DRIVER_OK,
       { w with
         eth_mac0_rw_info := { w.eth_mac0_rw_info with
           drv_status := { w.eth_mac0_rw_info.drv_status with powered := false } },
         calls := w.calls ++ [Call.HAL_ETH_DeInit] }) :=
  powerControl_off_eq hal w

/-- C12, `PowerControl (ARM_POWER_LOW)` is unsupported and has no effect: from every state it
returns `ARM_DRIVER_ERROR_UNSUPPORTED` and leaves the world (run-time record, memory, calls
made) exactly as it was. -/
theorem powerControl_low (hal : HAL_StatusTypeDef) (w : World) :
    ETH_MAC_PowerControl hal w ARM_POWER_LOW = (ARM_DRIVER_ERROR_UNSUPPORTED, w) := by
  unfold ETH_MAC_PowerControl
  simp [ARM_POWER_OFF, ARM_POWER_FULL, ARM_POWER_LOW]

/-- C13, `Initialize`: from every prior state and for every callback value, `NULL` included,
`ETH_MAC_Initialize` returns `ARM_DRIVER_OK` and leaves the record with `initialized = 1`,
`powered = 0`, `cb_event` the given callback, `tx_buf.len = 0`, no tracked receive frame and
`alloc_idx = 0`; it makes no call and does not touch memory. -/
theorem initialize_clears (w : World) (cb_event : Nat) :
    ETH_MAC_Initialize w cb_event =
      (ARM_DRIVER_OK,
       { w with eth_mac0_rw_info :=
          { cb_event := cb_event
            drv_status := { initialized := true, powered := false }
            alloc_idx := 0
            tx_buf := { buffer := NULL, len := 0, next := NULL }
            rx_buf := { buffer := NULL, len := 0, next := NULL } } }) :=
  rfl

/-- C14, `Uninitialize`: from every state `ETH_MAC_Uninitialize` returns `ARM_DRIVER_OK` and
leaves the fully cleared record; if the driver was powered the result is the clearing applied
to the world after `PowerControl (ARM_POWER_OFF)`, so `HAL_ETH_DeInit` is called exactly once
and before the clearing; if it was not powered no call is made. -/
theorem uninitialize_clears (hal : HAL_StatusTypeDef) (w : World) :
    ( ETH_MAC_Uninitialize hal w).1 = ARM_DRIVER_OK ∧
    ( ETH_MAC_Uninitialize hal w).2.eth_mac0_rw_info = RW_Info_t.zero ∧
    (w.eth_mac0_rw_info.drv_status.powered = true →
      ( ETH_MAC_Uninitialize hal w).2 =
        { (ETH_MAC_PowerControl hal w ARM_POWER_OFF).2 with
          eth_mac0_rw_info := RW_Info_t.zero } ∧
      ( ETH_MAC_Uninitialize hal w).2.calls = w.calls ++ [Call.HAL_ETH_DeInit]) ∧
    (w.eth_mac0_rw_info.drv_status.powered = false →
      ( ETH_MAC_Uninitialize hal w).2.calls = w.calls) := by
  refine ⟨rfl, rfl, ?_, ?_⟩
  · intro hpow
    unfold ETH_MAC_Uninitialize
    simp [hpow, powerControl_off_eq]
  · intro hpow
    unfold ETH_MAC_Uninitialize
    simp [hpow]

/-- Witness of C14: uninitializing the powered driver calls `HAL_ETH_DeInit` once. -/
theorem uninitialize_clears_witness :
    ( ETH_MAC_Uninitialize HAL_ERROR poweredWorld).2 =
        { (ETH_MAC_PowerControl HAL_ERROR poweredWorld ARM_POWER_OFF).2 with
          eth_mac0_rw_info := RW_Info_t.zero } ∧
    ( ETH_MAC_Uninitialize HAL_ERROR poweredWorld).2.calls
      = poweredWorld.calls ++ [Call.HAL_ETH_DeInit] :=
  (uninitialize_clears HAL_ERROR poweredWorld).2.2.1 rfl

/-- C15, power gating of the data path: in every state with `powered = 0`,
`ETH_MAC_SendFrame` with a non-null frame and `len > 0` and `ETH_MAC_ReadFrame` with a non-null
frame return `ARM_DRIVER_ERROR` and leave the client buffer and the world (run-time record,
memory, calls made) unchanged; the states at program start, after `Initialize`, after
`PowerControl (ARM_POWER_OFF)` and after `Uninitialize` are such states. -/
theorem data_path_power_gated (cfg : Config) :
    (∀ (heth : ETH_HandleTypeDef) (hal : HAL_StatusTypeDef) (w : World) (src : Nat → Nat)
        (len flags : Nat),
        w.eth_mac0_rw_info.drv_status.powered = false → 0 < len →
        ETH_MAC_SendFrame cfg heth hal w (some src) len flags = (ARM_DRIVER_ERROR, w)) ∧
    (∀ (w : World) (dst : Nat → Nat) (len : Nat),
        w.eth_mac0_rw_info.drv_status.powered = false →
        ETH_MAC_ReadFrame w (some dst) len = (ARM_DRIVER_ERROR, some dst, w)) ∧
    (∀ (TxConfig : ETH_TxPacketConfig) (mem : Nat → Nat),
        (World.reset TxConfig mem).eth_mac0_rw_info.drv_status.powered = false) ∧
    (∀ (hal : HAL_StatusTypeDef) (w : World) (cb_event : Nat),
        ( ETH_MAC_Initialize w cb_event).2.eth_mac0_rw_info.drv_status.powered = false ∧
        (ETH_MAC_PowerControl hal w ARM_POWER_OFF).2.eth_mac0_rw_info.drv_status.powered
          = false ∧
        ( ETH_MAC_Uninitialize hal w).2.eth_mac0_rw_info.drv_status.powered = false) := by
  refine ⟨?_, ?_, fun _ _ => rfl, fun hal w cb_event => ⟨rfl, ?_, rfl⟩⟩
  · intro heth hal w src len flags hpow hlen
    have hlen0 : len ≠ 0 := by omega
    unfold ETH_MAC_SendFrame
    simp [hlen0, hpow]
  · intro w dst len hpow
    unfold ETH_MAC_ReadFrame
    simp [hpow]
  · rw [powerControl_off_eq]

/-- Witness of C15: `SendFrame ("AB", 2, 0)` on the driver that was initialized but not
powered. -/
theorem data_path_power_gated_witness :
    ETH_MAC_SendFrame exampleConfig hethFree HAL_OK
      ( ETH_MAC_Initialize (World.reset { TxBuffer := false, Length := 0 } (fun _ => 0)) 7).2
      (some (bufferOf [65, 66])) 2 0
      = (ARM_DRIVER_ERROR,
         ( ETH_MAC_Initialize (World.reset { TxBuffer := false, Length := 0 } (fun _ => 0)) 7).2) :=
  (data_path_power_gated exampleConfig).1 hethFree HAL_OK
    ( ETH_MAC_Initialize (World.reset { TxBuffer := false, Length := 0 } (fun _ => 0)) 7).2
    (bufferOf [65, 66]) 2 0 rfl (by decide)

/-- The calls a HAL callback adds are calls of the client callback. -/
theorem callback_run_calls (cfg : Config) (w : World) (cb : Callback) :
    ∃ evs, (cb.run cfg w).calls = w.calls ++ evs ∧
      ∀ e ∈ evs, ∃ fn ev, e = Call.cb_event fn ev := by
  cases cb with
  | RxAllocate => exact ⟨[], (List.append_nil _).symm, by simp⟩
  | RxLink buff Length => exact ⟨[], (List.append_nil _).symm, by simp⟩
  | TxCplt =>
    show ∃ evs, (HAL_ETH_TxCpltCallback w).calls = w.calls ++ evs ∧ _
    unfold HAL_ETH_TxCpltCallback
    split
    · exact ⟨[Call.cb_event w.eth_mac0_rw_info.cb_event ARM_ETH_MAC_EVENT_TX_FRAME], rfl,
        by simp⟩
    · exact ⟨[], (List.append_nil _).symm, by simp⟩
  | RxCplt =>
    show ∃ evs, (HAL_ETH_RxCpltCallback w).calls = w.calls ++ evs ∧ _
    unfold HAL_ETH_RxCpltCallback
    split
    · exact ⟨[Call.cb_event w.eth_mac0_rw_info.cb_event ARM_ETH_MAC_EVENT_RX_FRAME], rfl,
        by simp⟩
    · exact ⟨[], (List.append_nil _).symm, by simp⟩
  | PMT =>
    show ∃ evs, (HAL_ETH_PMTCallback w).calls = w.calls ++ evs ∧ _
    unfold HAL_ETH_PMTCallback
    split
    · exact ⟨[Call.cb_event w.eth_mac0_rw_info.cb_event ARM_ETH_MAC_EVENT_WAKEUP], rfl,
        by simp⟩
    · exact ⟨[], (List.append_nil _).symm, by simp⟩

/-- The calls a sequence of HAL callbacks adds are calls of the client callback. -/
theorem callbacks_run_calls (cfg : Config) (cbs : List Callback) (w : World) :
    ∃ evs, (cbs.foldl (Callback.run cfg) w).calls = w.calls ++ evs ∧
      ∀ e ∈ evs, ∃ fn ev, e = Call.cb_event fn ev := by
  induction cbs generalizing w with
  | nil => exact ⟨[], (List.append_nil _).symm, by simp⟩
  | cons cb cbs ih =>
    obtain ⟨evs1, h1, g1⟩ := callback_run_calls cfg w cb
    obtain ⟨evs2, h2, g2⟩ := ih (cb.run cfg w)
    refine ⟨evs1 ++ evs2, ?_, ?_⟩
    · show (cbs.foldl (Callback.run cfg) (cb.run cfg w)).calls = _
      rw [h2, h1, List.append_assoc]
    · intro e he
      rcases List.mem_append.mp he with h | h
      · exact g1 e h
      · exact g2 e h

/-- A callback that is not a link notification leaves the receive buffer descriptor alone. -/
theorem callback_run_rx_buf (cfg : Config) (w : World) (cb : Callback)
    (hcb : cb.isRxLink = false) :
    (cb.run cfg w).eth_mac0_rw_info.rx_buf = w.eth_mac0_rw_info.rx_buf := by
  cases cb with
  | RxAllocate => rfl
  | RxLink buff Length => exact absurd hcb.symm Bool.false_ne_true
  | TxCplt =>
    show (HAL_ETH_TxCpltCallback w).eth_mac0_rw_info.rx_buf = _
    unfold HAL_ETH_TxCpltCallback; split <;> rfl
  | RxCplt =>
    show (HAL_ETH_RxCpltCallback w).eth_mac0_rw_info.rx_buf = _
    unfold HAL_ETH_RxCpltCallback; split <;> rfl
  | PMT =>
    show (HAL_ETH_PMTCallback w).eth_mac0_rw_info.rx_buf = _
    unfold HAL_ETH_PMTCallback; split <;> rfl

/-- Callbacks none of which is a link notification leave the receive buffer descriptor
alone. -/
theorem callbacks_run_rx_buf (cfg : Config) (cbs : List Callback) (w : World)
    (hcbs : ∀ cb ∈ cbs, cb.isRxLink = false) :
    (cbs.foldl (Callback.run cfg) w).eth_mac0_rw_info.rx_buf = w.eth_mac0_rw_info.rx_buf := by
  induction cbs generalizing w with
  | nil => rfl
  | cons cb cbs ih =>
    have h1 := ih (cb.run cfg w) (fun x hx => hcbs x (List.mem_cons_of_mem _ hx))
    have h2 := callback_run_rx_buf cfg w cb (hcbs cb (List.mem_cons_self _ _))
    exact h1.trans h2

/-- C16, receive frame size query: `ETH_MAC_GetRxFrameSize` makes exactly one call to the HAL,
`HAL_ETH_ReadData`, and whatever else is called during it is the client callback, invoked by
HAL callbacks; if the poll does not return `HAL_OK` the function returns `0`; if it returns
`HAL_OK` after delivering, as its last link notification, `(buff, L)`, the function returns
`L`, the length written during the same call. -/
theorem getRxFrameSize_poll (cfg : Config) :
    (∀ (during : List Callback) (hal : HAL_StatusTypeDef) (w : World),
        ∃ evs, (ETH_MAC_GetRxFrameSize cfg during hal w).2.calls
            = w.calls ++ Call.HAL_ETH_ReadData :: evs ∧
          ∀ e ∈ evs, ∃ fn ev, e = Call.cb_event fn ev) ∧
    (∀ (during : List Callback) (hal : HAL_StatusTypeDef) (w : World),
        hal ≠ HAL_OK → (ETH_MAC_GetRxFrameSize cfg during hal w).1 = 0) ∧
    (∀ (before after : List Callback) (buff L : Nat) (w : World),
        (∀ cb ∈ after, cb.isRxLink = false) →
        (ETH_MAC_GetRxFrameSize cfg (before ++ Callback.RxLink buff L :: after) HAL_OK w).1
          = L) := by
  refine ⟨?_, ?_, ?_⟩
  · intro during hal w
    obtain ⟨evs, h, g⟩ := callbacks_run_calls cfg during
      { w with calls := w.calls ++ [Call.HAL_ETH_ReadData] }
    refine ⟨evs, ?_, g⟩
    have h2 : (ETH_MAC_GetRxFrameSize cfg during hal w).2.calls
        = (during.foldl (Callback.run cfg)
            { w with calls := w.calls ++ [Call.HAL_ETH_ReadData] }).calls := by
      unfold ETH_MAC_GetRxFrameSize
      split <;> rfl
    rw [h2, h]
    simp
  · intro during hal w hhal
    unfold ETH_MAC_GetRxFrameSize
    simp [hhal]
  · intro before after buff L w hafter
    unfold ETH_MAC_GetRxFrameSize
    simp only [if_true, List.foldl_append, List.foldl_cons]
    rw [callbacks_run_rx_buf cfg after _ hafter]
    rfl

/-- Witness of C16: with a 60-byte frame tracked from before, a poll that links a 64-byte frame
and then allocates a buffer makes the function return `64`. -/
theorem getRxFrameSize_poll_witness :
    (ETH_MAC_GetRxFrameSize exampleConfig
      ([] ++ Callback.RxLink 0x300406F4 64 :: [Callback.RxAllocate]) HAL_OK trackedWorld).1
      = 64 :=
  (getRxFrameSize_poll exampleConfig).2.2 [] [Callback.RxAllocate] 0x300406F4 64 trackedWorld
    (by decide)

/-- C17, event dispatch: in every state, `HAL_ETH_TxCpltCallback`, `HAL_ETH_RxCpltCallback` and
`HAL_ETH_PMTCallback` each invoke the registered callback exactly once, with
`ARM_ETH_MAC_EVENT_TX_FRAME`, `ARM_ETH_MAC_EVENT_RX_FRAME` and `ARM_ETH_MAC_EVENT_WAKEUP`
respectively, when `cb_event` is not `NULL`, and do nothing when it is `NULL`; the run-time
record is unchanged in both cases. -/
theorem event_dispatch (w : World) :
    (w.eth_mac0_rw_info.cb_event ≠ NULL →
      HAL_ETH_TxCpltCallback w = { w with calls := w.calls ++
        [Call.cb_event w.eth_mac0_rw_info.cb_event ARM_ETH_MAC_EVENT_TX_FRAME] } ∧
      HAL_ETH_RxCpltCallback w = { w with calls := w.calls ++
        [Call.cb_event w.eth_mac0_rw_info.cb_event ARM_ETH_MAC_EVENT_RX_FRAME] } ∧
      HAL_ETH_PMTCallback w = { w with calls := w.calls ++
        [Call.cb_event w.eth_mac0_rw_info.cb_event ARM_ETH_MAC_EVENT_WAKEUP] }) ∧
    (w.eth_mac0_rw_info.cb_event = NULL →
      HAL_ETH_TxCpltCallback w = w ∧ HAL_ETH_RxCpltCallback w = w ∧
      HAL_ETH_PMTCallback w = w) ∧
    (HAL_ETH_TxCpltCallback w).eth_mac0_rw_info = w.eth_mac0_rw_info ∧
    (HAL_ETH_RxCpltCallback w).eth_mac0_rw_info = w.eth_mac0_rw_info ∧
    (HAL_ETH_PMTCallback w).eth_mac0_rw_info = w.eth_mac0_rw_info := by
  unfold HAL_ETH_TxCpltCallback HAL_ETH_RxCpltCallback HAL_ETH_PMTCallback
  by_cases h : w.eth_mac0_rw_info.cb_event = NULL
  · simp [h]
  · simp [h]

/-- Witness of C17: the powered driver, whose callback is `7`, receives each event once. -/
theorem event_dispatch_witness :
    HAL_ETH_TxCpltCallback poweredWorld = { poweredWorld with calls := poweredWorld.calls ++
      [Call.cb_event poweredWorld.eth_mac0_rw_info.cb_event ARM_ETH_MAC_EVENT_TX_FRAME] } ∧
    HAL_ETH_RxCpltCallback poweredWorld = { poweredWorld with calls := poweredWorld.calls ++
      [Call.cb_event poweredWorld.eth_mac0_rw_info.cb_event ARM_ETH_MAC_EVENT_RX_FRAME] } ∧
    HAL_ETH_PMTCallback poweredWorld = { poweredWorld with calls := poweredWorld.calls ++
      [Call.cb_event poweredWorld.eth_mac0_rw_info.cb_event ARM_ETH_MAC_EVENT_WAKEUP] } :=
  (event_dispatch poweredWorld).1 (by decide)

/-- C18 on the code: with a frame tracked, `ReadFrame (NULL, 0)` on the powered driver is
accepted and returns `0`, but the tracked pointer stays as it was, and a following
`ReadFrame` of 4 bytes into a client buffer returns `4` instead of `0`; a read into a client
buffer in place of the discard does clear the pointer. -/
theorem readFrame_null_keeps_frame :
    trackedWorld.eth_mac0_rw_info.drv_status.powered = true ∧
    trackedWorld.eth_mac0_rw_info.rx_buf.buffer = 0x30040100 ∧
    (ETH_MAC_ReadFrame trackedWorld none 0).1 = 0 ∧
    (ETH_MAC_ReadFrame trackedWorld none 0).2.2.eth_mac0_rw_info.rx_buf.buffer = 0x30040100 ∧
    (ETH_MAC_ReadFrame (ETH_MAC_ReadFrame trackedWorld none 0).2.2
      (some (bufferOf [])) 4).1 = 4 ∧
    (ETH_MAC_ReadFrame trackedWorld (some (bufferOf [])) 0).2.2.eth_mac0_rw_info.rx_buf.buffer
      = NULL := by
  refine ⟨by decide, by decide, by decide, by decide, by decide, by decide⟩

end ETH_MAC_STM32
